import Mathlib

/-!
Shallow embedding of the dtprodback rental-shop backend (Express + MySQL).

Modelling conventions:
* The relational store is a record of row lists; `SELECT ... LIMIT first row`
  becomes `List.find?`, `UPDATE`/`DELETE` become `List.map`/`List.filter`, and
  `affectedRows` is the number of rows matched by the `WHERE` predicate.
* Monetary amounts are rationals (JS numbers, idealized), dates are epoch
  milliseconds as integers (the value of `Date.getTime()` after a successful
  parse); request fields that may be absent are `Option`s.
* JS truthiness in request bodies: a numeric field equal to `0` and a string
  field equal to `""` are falsy, which the helpers `truthyNat` / `truthyInt` /
  `truthyStr` normalize to `none`.
* A JS `null` bind is SQL NULL, and an SQL comparison `col = NULL` never
  holds; a JS `undefined` bind never reaches MySQL at all — the driver's
  `execute` (mysql2 prepared statements, utils/db.js) throws
  `Bind parameters must not contain undefined ...` first, modelled as an
  `Except.error bindUndefinedMsg` at the offending query call.
-/

namespace DtProd

/-- A row of the `products` table (columns used by the routes under study). -/
structure Product where
  id : Nat
  name : String
  price_per_day : ℚ
  sale_price : Option ℚ
  image_url : Option String
  available : Bool
  is_deleted : Bool
deriving Repr, DecidableEq

/-- A row of the `cart` table. -/
structure CartItem where
  id : Nat
  user_id : Option Nat
  guest_session_id : Option String
  product_id : Nat
  start_date : ℤ
  end_date : ℤ
  quantity : ℤ
  price_snapshot : ℚ
deriving Repr, DecidableEq

/-- A row of the `orders` table. -/
structure Order where
  id : Nat
  user_id : Option Nat
  guest_session_id : Option String
  name : String
  email : String
  address : String
  phone : String
  status : String
deriving Repr, DecidableEq

/-- A row of the `order_items` table.  `product_name` is an `Option` because the
non-cart insert path reads `product.name` from a query that did not select the
`name` column, yielding SQL NULL (JS `undefined`). -/
structure OrderItem where
  order_id : Nat
  product_id : Nat
  product_name : Option String
  start_date : ℤ
  end_date : ℤ
  quantity : ℤ
  price_per_day : ℚ
  total_price : ℚ
  image_url : Option String
deriving Repr, DecidableEq

/-- A row of the `users` table.  `email`, `address`, `phone` are `Option`s and
an empty string is modelled as `none` (the code tests them with JS truthiness). -/
structure UserRow where
  id : Nat
  username : String
  email : Option String
  password : String
  role : String
  address : Option String
  phone : Option String
deriving Repr, DecidableEq

/-- The visible database state.  The `next*` counters model AUTO_INCREMENT
allocation (which in MySQL is not undone by a rollback). -/
structure Store where
  products : List Product
  cart : List CartItem
  orders : List Order
  order_items : List OrderItem
  users : List UserRow
  nextCartId : Nat
  nextOrderId : Nat
  nextUserId : Nat
deriving Repr, DecidableEq

/-- An HTTP-level outcome: `ok` a payload, or `err status message` (the message
is the `details`/`error` string the handler puts in the JSON envelope). -/
inductive Resp (α : Type) where
  | ok : α → Resp α
  | err : Nat → String → Resp α
deriving Repr, DecidableEq

instance exceptDecEq {ε α : Type} [DecidableEq ε] [DecidableEq α] :
    DecidableEq (Except ε α) := fun a b =>
  match a, b with
  | Except.error e1, Except.error e2 =>
    if h : e1 = e2 then isTrue (by rw [h])
    else isFalse (by intro hc; cases hc; exact h rfl)
  | Except.error _, Except.ok _ => isFalse (by intro hc; cases hc)
  | Except.ok _, Except.error _ => isFalse (by intro hc; cases hc)
  | Except.ok a1, Except.ok a2 =>
    if h : a1 = a2 then isTrue (by rw [h])
    else isFalse (by intro hc; cases hc; exact h rfl)

/-- JS truthiness for an optional numeric id: `0` is falsy. -/
def truthyNat : Option Nat → Option Nat
  | some 0 => none
  | o => o

/-- JS truthiness for an optional integer: `0` is falsy. -/
def truthyInt : Option ℤ → Option ℤ
  | some 0 => none
  | o => o

/-- JS truthiness for an optional string: `""` is falsy. -/
def truthyStr : Option String → Option String
  | some "" => none
  | o => o

/-- The message of the TypeError mysql2's `execute` raises when a bind
parameter is JS `undefined`: the statement is rejected in the driver, before
any SQL runs. -/
def bindUndefinedMsg : String :=
  "Bind parameters must not contain undefined. To pass SQL NULL specify JS null"

/-- The character class of the regex's `\s`: JS whitespace, which includes the
ASCII blanks plus NBSP, the Unicode space separators, the line separators and
the BOM. -/
def jsWhitespace (c : Char) : Bool :=
  c == ' ' || c == '\t' || c == '\n' || c == '\x0b' || c == '\x0c' || c == '\r' ||
  c == '\u00A0' || c == '\u1680' || (0x2000 ≤ c.toNat && c.toNat ≤ 0x200A) ||
  c == '\u2028' || c == '\u2029' || c == '\u202F' || c == '\u205F' ||
  c == '\u3000' || c == '\uFEFF'

/-- Milliseconds per day, the `1000 * 60 * 60 * 24` of the order route. -/
def msPerDay : ℤ := 1000 * 60 * 60 * 24

/-- `const days = Math.ceil((end - start) / (1000 * 60 * 60 * 24));` -/
def rentalDays (startMs endMs : ℤ) : ℤ :=
  ⌈((endMs - startMs : ℤ) : ℚ) / (msPerDay : ℚ)⌉

/-- `const totalPrice = days * product.price_per_day * qty;` -/
def lineTotal (startMs endMs : ℤ) (pricePerDay : ℚ) (qty : ℤ) : ℚ :=
  ((rentalDays startMs endMs : ℤ) : ℚ) * pricePerDay * (qty : ℚ)

/-- `SELECT ... FROM products WHERE id = ? AND available = TRUE` (first row),
for a defined id bind (callers model an `undefined` bind as the driver throw
instead).  Note: no `is_deleted` filter. -/
def findAvailableProduct (products : List Product) (pid : Nat) : Option Product :=
  products.find? (fun p => p.id == pid && p.available)

/-- The product's effective price:
`product.sale_price !== null ? product.sale_price : product.price_per_day`. -/
def effectivePrice (p : Product) : ℚ :=
  match p.sale_price with
  | some sp => sp
  | none => p.price_per_day

/-- The owner predicate the cart/order queries put in their `WHERE` clause:
`user_id = ?` when a user id is bound, else `guest_session_id = ?`
(an absent guest id binds SQL NULL and matches nothing). -/
def ownerScope (userId : Option Nat) (guest : Option String) (c : CartItem) : Bool :=
  match userId with
  | some uid => c.user_id == some uid
  | none =>
    match guest with
    | some g => c.guest_session_id == some g
    | none => false

/-- Request body of `POST /api/cart`.  Dates are already-parsed epoch ms. -/
structure CartAddBody where
  product_id : Option Nat
  start_date : Option ℤ
  end_date : Option ℤ
  quantity : Option ℤ
deriving Repr, DecidableEq

/-- `POST /api/cart` (routes/cart.js).  `today` is the start-of-day timestamp
`new Date().setHours(0,0,0,0)`.  The quantity is modelled as an integer, so the
`Number.isInteger` half of the quantity check always passes. -/
def addToCart (userId : Option Nat) (guestSessionId : Option String) (today : ℤ)
    (b : CartAddBody) (s : Store) : Resp Nat × Store :=
  match truthyNat b.product_id, b.start_date, b.end_date, truthyInt b.quantity with
  | some pid, some sd, some ed, some q =>
    if userId.isNone && guestSessionId.isNone then
      (Resp.err 400 "User ID or guest session ID required", s)
    else if ed ≤ sd then
      (Resp.err 400 "End date must be after start date", s)
    else if sd < today then
      (Resp.err 400 "Start date cannot be in the past", s)
    else if q < 1 then
      (Resp.err 400 "Quantity must be a positive integer", s)
    else
      match findAvailableProduct s.products pid with
      | none => (Resp.err 404 "Product not found or unavailable", s)
      | some p =>
        let item : CartItem :=
          { id := s.nextCartId
            user_id := userId
            guest_session_id := guestSessionId
            product_id := pid
            start_date := sd
            end_date := ed
            quantity := q
            price_snapshot := effectivePrice p }
        (Resp.ok s.nextCartId, { s with cart := item :: s.cart, nextCartId := s.nextCartId + 1 })
  | _, _, _, _ => (Resp.err 400 "Missing required fields", s)

/-- One row of the owner-scoped cart listing: `SELECT c.*, c.price_snapshot as
price_per_day, p.name, p.image_url FROM cart c JOIN products p ...`. -/
structure CartView where
  item : CartItem
  price_per_day : ℚ
  name : String
  image_url : Option String
deriving Repr, DecidableEq

/-- `GET /api/cart` (routes/cart.js).  The inner join drops cart rows whose
product id matches no product row. -/
def getCart (userId : Option Nat) (guestSessionId : Option String) (s : Store) :
    Resp (List CartView) :=
  if userId.isNone && guestSessionId.isNone then
    Resp.err 400 "User ID or guest session ID required"
  else
    Resp.ok <| s.cart.filterMap fun c =>
      if ownerScope userId guestSessionId c then
        match s.products.find? (fun p => p.id == c.product_id) with
        | some p =>
          some { item := c, price_per_day := c.price_snapshot, name := p.name,
                 image_url := p.image_url }
        | none => none
      else none

/-- `PUT /api/cart/:id` (routes/cart.js): `UPDATE cart SET quantity = ? WHERE
id = ? AND <owner> = ?`, then 404 when no row was matched. -/
def updateCartItem (userId : Option Nat) (guestSessionId : Option String)
    (cartId : Nat) (quantity : Option ℤ) (s : Store) : Resp Unit × Store :=
  if userId.isNone && guestSessionId.isNone then
    (Resp.err 400 "User ID or guest session ID required", s)
  else
    match quantity with
    | none => (Resp.err 400 "Quantity must be a positive integer", s)
    | some q =>
      if q < 1 then (Resp.err 400 "Quantity must be a positive integer", s)
      else
        let hit := fun c => c.id == cartId && ownerScope userId guestSessionId c
        let affected := s.cart.countP hit
        let s' := { s with cart := s.cart.map fun c => if hit c then { c with quantity := q } else c }
        if affected == 0 then (Resp.err 404 "Cart item not found", s')
        else (Resp.ok (), s')

/-- `DELETE /api/cart/:id` (routes/cart.js): `DELETE FROM cart WHERE id = ? AND
<owner> = ?`, then 404 when no row was matched. -/
def removeCartItem (userId : Option Nat) (guestSessionId : Option String)
    (cartId : Nat) (s : Store) : Resp Unit × Store :=
  if userId.isNone && guestSessionId.isNone then
    (Resp.err 400 "User ID or guest session ID required", s)
  else
    let hit := fun c => c.id == cartId && ownerScope userId guestSessionId c
    let affected := s.cart.countP hit
    let s' := { s with cart := s.cart.filter fun c => !hit c }
    if affected == 0 then (Resp.err 404 "Cart item not found", s')
    else (Resp.ok (), s')

/-- `DELETE /api/products/:id` (routes/products.js):
`UPDATE products SET is_deleted = TRUE WHERE id = ? AND is_deleted = FALSE`. -/
def softDeleteProduct (pid : Nat) (s : Store) : Resp Unit × Store :=
  let hit := fun (p : Product) => p.id == pid && !p.is_deleted
  let affected := s.products.countP hit
  let s' := { s with products := s.products.map fun p => if hit p then { p with is_deleted := true } else p }
  if affected == 0 then (Resp.err 404 "Product not found", s')
  else (Resp.ok (), s')

/-- The email test `/^[^\s@]+@[^\s@]+\.[^\s@]+$/` of the order route, decided
on the character list: the string matches iff it has exactly one `@`, no
whitespace, a non-empty part before the `@`, and after the `@` a dot that is
neither the first nor the last remaining character (the `[^\s@]+` classes allow
further dots on either side of it). -/
def emailValid (email : String) : Bool :=
  let cs := email.toList
  let lpart := cs.takeWhile (fun c => c != '@')
  let dpart := (cs.dropWhile (fun c => c != '@')).drop 1
  cs.count '@' == 1 &&
  !lpart.isEmpty &&
  !(cs.any jsWhitespace) &&
  ((dpart.drop 1).dropLast.contains '.')

/-- One element of the `cartItems` array of `POST /api/orders`. -/
structure OrderLine where
  cartId : Option Nat
  productId : Option Nat
  start_date : Option ℤ
  end_date : Option ℤ
  quantity : Option ℤ
deriving Repr, DecidableEq

/-- Request body of `POST /api/orders`. -/
structure OrderBody where
  cartItems : List OrderLine
  guestSessionId : Option String
  name : Option String
  email : Option String
  address : Option String
  phone : Option String
deriving Repr, DecidableEq

/-- The denormalized contact block the order row is filled from. -/
structure Contact where
  name : String
  email : String
  address : String
  phone : String
deriving Repr, DecidableEq

/-- Contact resolution of the order route: a registered user's row supplies the
fields (email mandatory, `||`-defaults for address/phone), a guest must supply
all four fields with a well-formed email. -/
def resolveContact (userId : Option Nat) (b : OrderBody) (s : Store) :
    Except (Nat × String) Contact :=
  match userId with
  | some uid =>
    match s.users.find? (fun u => u.id == uid) with
    | none => Except.error (404, "User not found")
    | some u =>
      match truthyStr u.email with
      | none => Except.error (400, "User profile missing required email")
      | some em =>
        Except.ok { name := u.username, email := em,
                    address := u.address.getD "Not provided",
                    phone := u.phone.getD "Not provided" }
  | none =>
    match truthyStr b.name, truthyStr b.email, truthyStr b.address, truthyStr b.phone with
    | some nm, some em, some ad, some ph =>
      if !emailValid em then Except.error (400, "Invalid email address")
      else Except.ok { name := nm, email := em, address := ad, phone := ph }
    | _, _, _, _ =>
      Except.error (400, "Missing required fields: name, email, address, phone")

/-- Result of the per-line cart fetch of the order route: the cart row joined
with the product's name (`p.name AS product_name`). -/
structure CartFetch where
  row : CartItem
  product_name : String
deriving Repr, DecidableEq

/-- `SELECT c.*, p.name AS product_name, ... FROM cart c JOIN products p ON
c.product_id = p.id WHERE c.id = ? AND <owner> = ?` (first row). -/
def fetchCartItem (userId : Option Nat) (guest : Option String) (cid : Nat)
    (s : Store) : Option CartFetch :=
  match s.cart.find? (fun c => c.id == cid && ownerScope userId guest c) with
  | none => none
  | some c =>
    match s.products.find? (fun p => p.id == c.product_id) with
    | none => none
    | some p => some { row := c, product_name := p.name }

/-- The tail of a successful loop iteration: the `order_items` insert, followed
by the owner-scoped `DELETE FROM cart WHERE id = ? AND <owner> = ?` when the
line carried a (truthy) cart reference. -/
def insertThenMaybeDelete (userId : Option Nat) (guest : Option String)
    (cartIdRef : Option Nat) (item : OrderItem) (st : Store) : Store :=
  match cartIdRef with
  | some cid =>
    { st with
      order_items := item :: st.order_items,
      cart := st.cart.filter (fun c => !(c.id == cid && ownerScope userId guest c)) }
  | none => { st with order_items := item :: st.order_items }

/-- The portion of the order route's loop body after the cart fetch: product
lookup on the line's own `productId` (an omitted `productId` is an `undefined`
bind, so the driver throws before the query runs), field resolution, date
validation, pricing from the looked-up product's current `price_per_day`
(never the cart row's `price_snapshot`), then the `order_items` insert and the
owner-scoped cart delete when the line carried a cart reference.  For a line
without a cart reference the insert binds `product.name`, a column the product
SELECT never selected, so that bind is `undefined` and the driver throws at
the insert. -/
def processLineWith (userId : Option Nat) (guest : Option String) (orderId : Nat)
    (l : OrderLine) (cartItem : Option CartFetch) (st : Store) : Except String Store :=
  match l.productId with
  | none => Except.error bindUndefinedMsg
  | some pid =>
    match findAvailableProduct st.products pid with
    | none =>
      Except.error ("Product " ++ toString pid ++ " not found or unavailable")
    | some product =>
      match (match cartItem with | some cf => some cf.row.start_date | none => l.start_date),
            (match cartItem with | some cf => some cf.row.end_date | none => l.end_date),
            truthyInt (match cartItem with | some cf => some cf.row.quantity | none => l.quantity) with
      | some sd, some ed, some q =>
        if ed ≤ sd then Except.error "Invalid date range"
        else
          match cartItem with
          | some cf =>
            Except.ok (insertThenMaybeDelete userId guest (truthyNat l.cartId)
              { order_id := orderId
                product_id := product.id
                product_name := some cf.product_name
                start_date := sd
                end_date := ed
                quantity := q
                price_per_day := product.price_per_day
                total_price := lineTotal sd ed product.price_per_day q
                image_url := product.image_url } st)
          | none => Except.error bindUndefinedMsg
      | _, _, _ => Except.error "Missing required fields: start_date, end_date, quantity"

/-- One iteration of the order route's `for (const {cartId, productId, ...} of
cartItems)` loop, as a state transformer that throws the loop's `Error`
messages: the owner-scoped cart fetch when `cartId` is truthy, then
`processLineWith`. -/
def processLine (userId : Option Nat) (guest : Option String) (orderId : Nat)
    (l : OrderLine) (st : Store) : Except String Store :=
  match truthyNat l.cartId with
  | none => processLineWith userId guest orderId l none st
  | some cid =>
    match fetchCartItem userId guest cid st with
    | none =>
      Except.error ("Cart item " ++ toString cid ++ " not found or does not belong to user")
    | some cf => processLineWith userId guest orderId l (some cf) st

/-- The whole `for ... of cartItems` loop. -/
def processLines (userId : Option Nat) (guest : Option String) (orderId : Nat) :
    List OrderLine → Store → Except String Store
  | [], st => Except.ok st
  | l :: ls, st =>
    match processLine userId guest orderId l st with
    | Except.error e => Except.error e
    | Except.ok st' => processLines userId guest orderId ls st'

/-- The order row inserted at the start of the transaction:
`INSERT INTO orders (user_id, guest_session_id, ...) VALUES (?, userId ? null :
guestSessionId, ..., 'pending')`. -/
def newOrderRow (userId : Option Nat) (b : OrderBody) (contact : Contact)
    (oid : Nat) : Order :=
  { id := oid
    user_id := userId
    guest_session_id := match userId with | some _ => none | none => b.guestSessionId
    name := contact.name
    email := contact.email
    address := contact.address
    phone := contact.phone
    status := "pending" }

/-- `POST /api/orders` (the order-placement route).  A failure inside the
transaction rolls the row state back to `s`; the AUTO_INCREMENT order-id
counter, as in MySQL, is not rolled back. -/
def placeOrder (userId : Option Nat) (b : OrderBody) (s : Store) : Resp Nat × Store :=
  if b.cartItems.isEmpty then
    (Resp.err 400 "At least one cart item is required", s)
  else if userId.isNone && b.guestSessionId.isNone then
    (Resp.err 400 "User ID or guest session ID required", s)
  else
    match resolveContact userId b s with
    | Except.error ce => (Resp.err ce.1 ce.2, s)
    | Except.ok contact =>
      match processLines userId b.guestSessionId s.nextOrderId b.cartItems
          { s with orders := newOrderRow userId b contact s.nextOrderId :: s.orders,
                   nextOrderId := s.nextOrderId + 1 } with
      | Except.error e => (Resp.err 500 e, { s with nextOrderId := s.nextOrderId + 1 })
      | Except.ok st' => (Resp.ok s.nextOrderId, st')

/-- The four admissible order statuses of `PUT /api/orders/:id`. -/
def validStatuses : List String := ["pending", "approved", "completed", "cancelled"]

/-- `PUT /api/orders/:id` (admin status update): `UPDATE orders SET status = ?
WHERE id = ?`, 404 when no row matched, else re-select the row. -/
def updateOrderStatus (status : String) (oid : Nat) (s : Store) :
    Resp (Option Order) × Store :=
  if !(validStatuses.contains status) then (Resp.err 400 "Invalid status", s)
  else
    let hit := fun (o : Order) => o.id == oid
    let affected := s.orders.countP hit
    let orders2 := s.orders.map fun o => if hit o then { o with status := status } else o
    let s' := { s with orders := orders2 }
    if affected == 0 then (Resp.err 404 "Order not found", s')
    else (Resp.ok (orders2.find? hit), s')

/-- Request body of `POST /api/auth/register`.  The code destructures only the
five named fields; a `role` field supplied by the caller is never read. -/
structure RegisterBody where
  username : Option String
  email : Option String
  password : Option String
  address : Option String
  phone : Option String
  role : Option String
deriving Repr, DecidableEq

/-- `register` (utils/auth.js).  `hash` abstracts bcrypt.  The duplicate-email
guard destructures the first row and then tests `existing.length > 0`; a row
object has no `length` property, so that guard can never fire (JS
`undefined > 0` is `false`) and is modelled as dead. -/
def register (hash : String → String) (b : RegisterBody) (s : Store) :
    Resp Unit × Store :=
  match truthyStr b.username, truthyStr b.email, truthyStr b.password,
        truthyStr b.address, truthyStr b.phone with
  | some un, some em, some pw, some ad, some ph =>
    let firstMatch := s.users.find? (fun u => u.email == some em)
    if firstMatch.isSome && false then (Resp.err 400 "Email already in use", s)
    else if pw.length < 6 then
      (Resp.err 400 "Password must be at least 6 characters long", s)
    else
      let u : UserRow :=
        { id := s.nextUserId, username := un, email := some em,
          password := hash pw, role := "client", address := some ad, phone := some ph }
      (Resp.ok (), { s with users := u :: s.users, nextUserId := s.nextUserId + 1 })
  | _, _, _, _, _ =>
    (Resp.err 400 "All fields (username, email, password, address, phone) are required", s)

/-- A decoded JWT payload as the `authenticate` middleware sees it.  The `id`
is optional because the code re-checks `!decoded.id` (0 is also falsy). -/
structure Decoded where
  id : Option Nat
  role : Option String
deriving Repr, DecidableEq

/-- The `||` chain that picks the guest session id from body, query or cookie. -/
def pickGuestId (bodyGuest queryGuest cookieGuest : Option String) : Option String :=
  match truthyStr bodyGuest with
  | some g => some g
  | none =>
    match truthyStr queryGuest with
    | some g => some g
    | none => truthyStr cookieGuest

/-- The `authenticate` middleware (utils/auth.js).  `verify` abstracts
`jwt.verify` (`none` collapses the expired/malformed branches, all of which
reject with 401); `freshId` is the `crypto.randomUUID()` value minted for a
guest without a session id.  On success it yields the pair
(`req.user`, `req.guestSessionId`). -/
def authenticate (verify : String → Option Decoded) (authHeader : Option String)
    (bodyGuest queryGuest cookieGuest : Option String) (freshId : String) :
    Resp (Option Decoded × Option String) :=
  match truthyStr authHeader with
  | none =>
    match pickGuestId bodyGuest queryGuest cookieGuest with
    | some g => Resp.ok (none, some g)
    | none => Resp.ok (none, some freshId)
  | some hdr =>
    if !(hdr.startsWith "Bearer ") then Resp.err 401 "No token provided"
    else
      match verify (hdr.drop 7) with
      | none => Resp.err 401 "Invalid token"
      | some decoded =>
        match truthyNat decoded.id with
        | none => Resp.err 401 "Invalid token: missing user ID"
        | some _ => Resp.ok (some decoded, none)

/-- The composed `POST /api/cart` endpoint: `authenticate` then the handler,
with `const userId = req.user ? req.user.id : null`. -/
def cartAddRoute (verify : String → Option Decoded) (authHeader : Option String)
    (bodyGuest queryGuest cookieGuest : Option String) (freshId : String)
    (today : ℤ) (b : CartAddBody) (s : Store) : Resp Nat × Store :=
  match authenticate verify authHeader bodyGuest queryGuest cookieGuest freshId with
  | Resp.err c m => (Resp.err c m, s)
  | Resp.ok (u, g) =>
    addToCart (match u with | some d => d.id | none => none) g today b s

/-- An empty initial database. -/
def emptyStore : Store :=
  { products := [], cart := [], orders := [], order_items := [], users := [],
    nextCartId := 1, nextOrderId := 1, nextUserId := 1 }

/-- A registration body that tries to smuggle in `role: "admin"`. -/
def C10body : RegisterBody :=
  { username := some "eve", email := some "e@x.co", password := some "secret1",
    address := some "A", phone := some "1", role := some "admin" }

/-- The row the register call actually stores for `C10body`. -/
def C10row : UserRow :=
  { id := 1, username := "eve", email := some "e@x.co", password := "secret1",
    role := "client", address := some "A", phone := some "1" }

/-- A store holding one cart row owned by user 1. -/
def C5store : Store :=
  { products := [], orders := [], order_items := [], users := [],
    cart := [{ id := 1, user_id := some 1, guest_session_id := none, product_id := 7,
               start_date := 0, end_date := 86400000, quantity := 1, price_snapshot := 20 }],
    nextCartId := 2, nextOrderId := 1, nextUserId := 2 }

/-- A store with two orders and one order item, for the C8 witness. -/
def C8store : Store :=
  { products := [], cart := [], users := [],
    orders :=
      [{ id := 1, user_id := some 1, guest_session_id := none, name := "A",
         email := "a@x.co", address := "Addr", phone := "1", status := "pending" },
       { id := 2, user_id := none, guest_session_id := some "g", name := "B",
         email := "b@x.co", address := "Addr2", phone := "2", status := "pending" }],
    order_items :=
      [{ order_id := 1, product_id := 7, product_name := some "P", start_date := 0,
         end_date := 86400000, quantity := 1, price_per_day := 20, total_price := 20,
         image_url := none }],
    nextCartId := 1, nextOrderId := 3, nextUserId := 2 }

/-- A store with one available product that has a sale price. -/
def C6store : Store :=
  { products := [{ id := 7, name := "P", price_per_day := 30, sale_price := some 25,
                   image_url := none, available := true, is_deleted := false }],
    cart := [], orders := [], order_items := [], users := [],
    nextCartId := 1, nextOrderId := 1, nextUserId := 1 }

/-- The body of the C6 witness add-to-cart request. -/
def C6body : CartAddBody :=
  { product_id := some 7, start_date := some 0, end_date := some 86400000,
    quantity := some 1 }

/-- The resulting store of the C6 witness add-to-cart request. -/
def C6store2 : Store :=
  { products := C6store.products,
    cart := [{ id := 1, user_id := some 3, guest_session_id := none, product_id := 7,
               start_date := 0, end_date := 86400000, quantity := 1,
               price_snapshot := 25 }],
    orders := [], order_items := [], users := [],
    nextCartId := 2, nextOrderId := 1, nextUserId := 1 }

/-! ## Claim C4: soft-deleted products and add-to-cart -/

/-- A store whose only product is soft-deleted but still flagged available. -/
def C4store : Store :=
  { products := [{ id := 5, name := "D", price_per_day := 10, sale_price := none,
                   image_url := none, available := true, is_deleted := true }],
    cart := [], orders := [], order_items := [], users := [],
    nextCartId := 1, nextOrderId := 1, nextUserId := 1 }

/-- An add-to-cart body naming the soft-deleted product. -/
def C4body : CartAddBody :=
  { product_id := some 5, start_date := some 0, end_date := some 86400000,
    quantity := some 1 }

/-- An order body with neither a user nor a guest session id. -/
def C7noOwnerBody : OrderBody :=
  { cartItems := [{ cartId := some 1, productId := some 7, start_date := none,
                    end_date := none, quantity := none }],
    guestSessionId := none, name := none, email := none, address := none, phone := none }

/-- The store the composed guest cart-add of the C7 witness produces. -/
def C7cartStore2 : Store :=
  { products := C6store.products,
    cart := [{ id := 1, user_id := none, guest_session_id := some "g", product_id := 7,
               start_date := 0, end_date := 86400000, quantity := 1,
               price_snapshot := 25 }],
    orders := [], order_items := [], users := [],
    nextCartId := 2, nextOrderId := 1, nextUserId := 1 }

/-- An order store with one registered user and one available product. -/
def C7orderStore : Store :=
  { products := [{ id := 7, name := "P", price_per_day := 30, sale_price := none,
                   image_url := none, available := true, is_deleted := false }],
    cart := [{ id := 1, user_id := some 1, guest_session_id := none, product_id := 7,
               start_date := 0, end_date := 86400000, quantity := 1,
               price_snapshot := 30 }],
    orders := [], order_items := [],
    users := [{ id := 1, username := "U", email := some "u@x.co", password := "h",
                role := "client", address := none, phone := none }],
    nextCartId := 2, nextOrderId := 1, nextUserId := 2 }

/-- A cart-referenced order line for user 1's cart row 1 (product 7). -/
def C7orderBody : OrderBody :=
  { cartItems := [{ cartId := some 1, productId := some 7, start_date := none,
                    end_date := none, quantity := none }],
    guestSessionId := some "gg", name := none, email := none, address := none,
    phone := none }

/-- The store the C7 witness order placement produces: note the order row's
`guest_session_id` is null although the body supplied `"gg"`. -/
def C7orderStore2 : Store :=
  { products := C7orderStore.products,
    cart := [],
    orders := [{ id := 1, user_id := some 1, guest_session_id := none, name := "U",
                 email := "u@x.co", address := "Not provided", phone := "Not provided",
                 status := "pending" }],
    order_items := [{ order_id := 1, product_id := 7, product_name := some "P",
                      start_date := 0, end_date := 86400000, quantity := 1,
                      price_per_day := 30, total_price := 30, image_url := none }],
    users := C7orderStore.users,
    nextCartId := 2, nextOrderId := 2, nextUserId := 2 }

/-- A line that carries only a cart reference (no productId). -/
def C9line : OrderLine :=
  { cartId := some 1, productId := none, start_date := none, end_date := none,
    quantity := none }

/-- A store where cart item 1 is owned by guest `g`, references product 7, and
product 7 exists and is available — the claim's `even when` situation. -/
def C9store : Store :=
  { products := [{ id := 7, name := "P", price_per_day := 30, sale_price := none,
                   image_url := none, available := true, is_deleted := false }],
    cart := [{ id := 1, user_id := none, guest_session_id := some "g", product_id := 7,
               start_date := 0, end_date := 259200000, quantity := 2,
               price_snapshot := 20 }],
    orders := [], order_items := [], users := [],
    nextCartId := 2, nextOrderId := 1, nextUserId := 1 }

/-- The order body of the C9 witness: one cart-only line, guest owner. -/
def C9body : OrderBody :=
  { cartItems := [C9line], guestSessionId := some "g", name := some "N",
    email := some "n@x.co", address := some "A", phone := some "1" }

/-- The product as it stands at order time: price edited from 20 to 30. -/
def C1product : Product :=
  { id := 7, name := "P", price_per_day := 30, sale_price := none,
    image_url := none, available := true, is_deleted := false }

/-- The cart row, added when the price was 20 (its immutable snapshot). -/
def C1cartRow : CartItem :=
  { id := 1, user_id := none, guest_session_id := some "g", product_id := 7,
    start_date := 0, end_date := 259200000, quantity := 2, price_snapshot := 20 }

/-- Store at order time: snapshot 20 in the cart, live price 30. -/
def C1store : Store :=
  { products := [C1product], cart := [C1cartRow], orders := [], order_items := [],
    users := [], nextCartId := 2, nextOrderId := 1, nextUserId := 1 }

/-- The cart-referenced order line of the C1 scenario. -/
def C1line : OrderLine :=
  { cartId := some 1, productId := some 7, start_date := none, end_date := none,
    quantity := none }

/-- The guest order body of the C1 scenario. -/
def C1body : OrderBody :=
  { cartItems := [C1line], guestSessionId := some "g", name := some "N",
    email := some "n@x.co", address := some "A", phone := some "123" }

/-- The store the C1 order placement produces. -/
def C1store2 : Store :=
  { products := [C1product], cart := [],
    orders := [{ id := 1, user_id := none, guest_session_id := some "g", name := "N",
                 email := "n@x.co", address := "A", phone := "123",
                 status := "pending" }],
    order_items := [{ order_id := 1, product_id := 7, product_name := some "P",
                      start_date := 0, end_date := 259200000, quantity := 2,
                      price_per_day := 30, total_price := 180, image_url := none }],
    users := [], nextCartId := 2, nextOrderId := 2, nextUserId := 1 }

/-- The store after the single C1 loop iteration (order row not yet shown:
`processLine` itself only inserts the item and deletes the cart row). -/
def C1procStore : Store :=
  { products := [C1product], cart := [], orders := [],
    order_items := [{ order_id := 1, product_id := 7, product_name := some "P",
                      start_date := 0, end_date := 259200000, quantity := 2,
                      price_per_day := 30, total_price := 180, image_url := none }],
    users := [], nextCartId := 2, nextOrderId := 1, nextUserId := 1 }

/-- The predicate by which a line's cart reference claims a cart row. -/
def lineClaims (userId : Option Nat) (guest : Option String) (l : OrderLine)
    (c : CartItem) : Bool :=
  match truthyNat l.cartId with
  | some cid => c.id == cid && ownerScope userId guest c
  | none => false

/-- Validity of a cart-referenced line against a store: the reference is
truthy, a productId is supplied (else the driver throws on the bind), the
owner-scoped joined fetch succeeds, the row is claimed by exactly one cart
entry, its dates are a proper range, its quantity is truthy, and the line's
product lookup succeeds. -/
def lineOK (userId : Option Nat) (guest : Option String) (st : Store)
    (l : OrderLine) : Bool :=
  match truthyNat l.cartId, l.productId with
  | some cid, some pid =>
    match fetchCartItem userId guest cid st with
    | none => false
    | some cf =>
      (st.cart.countP (fun c => c.id == cid && ownerScope userId guest c) == 1)
        && (decide (cf.row.start_date < cf.row.end_date))
        && (cf.row.quantity != 0)
        && (findAvailableProduct st.products pid).isSome
  | _, _ => false

/-- A store with two guest-owned cart rows for the C2 witness. -/
def C2store : Store :=
  { products := [{ id := 7, name := "P", price_per_day := 30, sale_price := none,
                   image_url := none, available := true, is_deleted := false }],
    cart := [{ id := 1, user_id := none, guest_session_id := some "g", product_id := 7,
               start_date := 0, end_date := 86400000, quantity := 1, price_snapshot := 30 },
             { id := 2, user_id := none, guest_session_id := some "g", product_id := 7,
               start_date := 0, end_date := 86400000, quantity := 1, price_snapshot := 30 }],
    orders := [], order_items := [], users := [],
    nextCartId := 3, nextOrderId := 1, nextUserId := 1 }

/-- A guest order over both cart rows of `C2store`. -/
def C2body : OrderBody :=
  { cartItems := [{ cartId := some 1, productId := some 7, start_date := none,
                    end_date := none, quantity := none },
                  { cartId := some 2, productId := some 7, start_date := none,
                    end_date := none, quantity := none }],
    guestSessionId := some "g", name := some "N", email := some "n@x.co",
    address := some "A", phone := some "1" }

/-- The contact block both C2/C9 guest bodies resolve to. -/
def C2contact : Contact :=
  { name := "N", email := "n@x.co", address := "A", phone := "1" }

/-- Rewrites `truthyNat` into an `if` so that simp can evaluate it on literals. -/
theorem truthyNat_eq_ite (o : Option Nat) : truthyNat o = if o = some 0 then none else o := by
  match o with
  | none => rfl
  | some 0 => rfl
  | some (n + 1) => simp [truthyNat]

/-- Rewrites `truthyInt` into an `if` so that simp can evaluate it on literals. -/
theorem truthyInt_eq_ite (o : Option ℤ) : truthyInt o = if o = some 0 then none else o := by
  match o with
  | none => rfl
  | some z =>
    by_cases h : z = 0
    · subst h; rfl
    · simp only [Option.some.injEq, h, if_neg]
      unfold truthyInt
      split
      · simp_all
      · rfl

/-- Rewrites `truthyStr` into an `if` so that simp can evaluate it on literals. -/
theorem truthyStr_eq_ite (o : Option String) : truthyStr o = if o = some "" then none else o := by
  match o with
  | none => rfl
  | some z =>
    by_cases h : z = ""
    · subst h; rfl
    · simp only [Option.some.injEq, h, if_neg]
      unfold truthyStr
      split
      · simp_all
      · rfl

/-! ## Pricing (claim C3) -/

theorem rentalDays_pos (startMs endMs : ℤ) (h : startMs < endMs) :
    0 < rentalDays startMs endMs := by
  unfold rentalDays
  rw [Int.ceil_pos]
  apply div_pos
  · exact_mod_cast sub_pos.mpr h
  · norm_num [msPerDay]

/-- C3: for end strictly after start, quantity ≥ 1 and non-negative unit
price, the order route's line total equals
`ceil((end - start) / msPerDay) * unitPrice * quantity`, and it is monotonically
non-decreasing in the quantity and in the rental duration. -/
theorem C3_pricing_formula_and_monotone (startMs endMs q : ℤ) (p : ℚ)
    (h1 : startMs < endMs) (hq : 1 ≤ q) (hp : 0 ≤ p) :
    lineTotal startMs endMs p q
        = (⌈((endMs - startMs : ℤ) : ℚ) / ((1000 * 60 * 60 * 24 : ℤ) : ℚ)⌉ : ℚ) * p * (q : ℚ)
      ∧ (∀ q2 : ℤ, q ≤ q2 → lineTotal startMs endMs p q ≤ lineTotal startMs endMs p q2)
      ∧ (∀ endMs2 : ℤ, endMs ≤ endMs2 →
          lineTotal startMs endMs p q ≤ lineTotal startMs endMs2 p q) := by
  have hd : (0 : ℚ) ≤ ((rentalDays startMs endMs : ℤ) : ℚ) := by
    exact_mod_cast le_of_lt (rentalDays_pos startMs endMs h1)
  refine ⟨rfl, ?_, ?_⟩
  · intro q2 hq2
    unfold lineTotal
    apply mul_le_mul_of_nonneg_left
    · exact_mod_cast hq2
    · exact mul_nonneg hd hp
  · intro endMs2 h2
    unfold lineTotal
    have hdays : rentalDays startMs endMs ≤ rentalDays startMs endMs2 := by
      unfold rentalDays
      apply Int.ceil_le_ceil
      apply div_le_div_of_nonneg_right ?_ ?_
      · exact_mod_cast sub_le_sub_right h2 startMs
      · norm_num [msPerDay]
    have hq0 : (0 : ℚ) ≤ (q : ℚ) := by exact_mod_cast le_trans zero_le_one hq
    apply mul_le_mul_of_nonneg_right ?_ hq0
    apply mul_le_mul_of_nonneg_right ?_ hp
    exact_mod_cast hdays

/-- Witness for C3 at the spec's own example: 3 whole days at 20 per day,
quantity 2 gives 120, and both monotonicity facts hold there. -/
theorem C3_pricing_witness :
    (0 : ℤ) < 259200000 ∧ (1 : ℤ) ≤ 2 ∧ (0 : ℚ) ≤ 20 ∧
      (lineTotal 0 259200000 20 2
          = (⌈((259200000 - 0 : ℤ) : ℚ) / ((1000 * 60 * 60 * 24 : ℤ) : ℚ)⌉ : ℚ) * 20 * (2 : ℚ)
        ∧ (∀ q2 : ℤ, 2 ≤ q2 → lineTotal 0 259200000 20 2 ≤ lineTotal 0 259200000 20 q2)
        ∧ (∀ endMs2 : ℤ, 259200000 ≤ endMs2 →
            lineTotal 0 259200000 20 2 ≤ lineTotal 0 endMs2 20 2)) :=
  ⟨by decide, by decide, by norm_num,
    C3_pricing_formula_and_monotone 0 259200000 2 20 (by decide) (by decide) (by norm_num)⟩

/-! ## List helpers for no-match updates -/

theorem map_ite_id {α : Type} (p : α → Bool) (f : α → α) (l : List α)
    (h : ∀ a ∈ l, p a = false) : (l.map fun a => if p a then f a else a) = l := by
  induction l with
  | nil => rfl
  | cons a t ih =>
    simp only [List.map_cons, List.cons.injEq]
    constructor
    · rw [h a (List.mem_cons_self a t)]; rfl
    · exact ih fun x hx => h x (List.mem_cons_of_mem a hx)

theorem filter_not_id {α : Type} (p : α → Bool) (l : List α)
    (h : ∀ a ∈ l, p a = false) : (l.filter fun a => !p a) = l := by
  apply List.filter_eq_self.mpr
  intro a ha
  rw [h a ha]
  rfl

/-! ## Claim C10: registration always stores role `client` -/

/-- C10: every user row present after a registration call was either already
there or was stored with role `client`; in particular no request body — the
unread `role` field included — can make the public registration endpoint
create an admin user. -/
theorem C10_register_role (hash : String → String) (b : RegisterBody) (s : Store) :
    ∀ u ∈ (register hash b s).2.users, u ∈ s.users ∨ u.role = "client" := by
  intro u hu
  unfold register at hu
  split at hu
  · simp only [Bool.and_false, Bool.false_eq_true, if_false] at hu
    split at hu
    · exact Or.inl hu
    · rcases List.mem_cons.mp hu with h | h
      · right; rw [h]
      · exact Or.inl h
  · exact Or.inl hu

/-- Witness for C10: a body carrying `role: "admin"` still yields a `client` row. -/
theorem C10_register_role_witness :
    C10row ∈ (register (fun pw => pw) C10body emptyStore).2.users ∧
      (C10row ∈ emptyStore.users ∨ C10row.role = "client") :=
  ⟨by decide, C10_register_role (fun pw => pw) C10body emptyStore C10row (by decide)⟩

/-! ## Claim C5: cart mutations are owner-scoped -/

/-- C5: when no cart row satisfies both the id and the owner predicate — the
row does not exist, or exists under a different user id, a different guest
session, or the other owner kind — both the update-quantity and the remove
endpoint answer 404 `Cart item not found` and leave the store untouched
(no row of any owner modified or deleted). -/
theorem C5_cart_mutation_owner_scoped (userId : Option Nat) (guest : Option String)
    (cid : Nat) (q : ℤ) (s : Store)
    (howner : (userId.isNone && guest.isNone) = false)
    (hq : 1 ≤ q)
    (hmiss : ∀ c ∈ s.cart, (c.id == cid && ownerScope userId guest c) = false) :
    updateCartItem userId guest cid (some q) s = (Resp.err 404 "Cart item not found", s)
      ∧ removeCartItem userId guest cid s = (Resp.err 404 "Cart item not found", s) := by
  have hcount : s.cart.countP (fun c => c.id == cid && ownerScope userId guest c) = 0 :=
    List.countP_eq_zero.mpr (by simpa using hmiss)
  have hnot : ¬(q < 1) := not_lt.mpr hq
  constructor
  · unfold updateCartItem
    rw [howner]
    simp only [Bool.false_eq_true, if_false, hnot, hcount, map_ite_id _ _ _ hmiss]
    rfl
  · unfold removeCartItem
    rw [howner]
    simp only [Bool.false_eq_true, if_false, hcount, filter_not_id _ _ hmiss]
    rfl

/-- Witness for C5: user 2 targeting user 1's cart row id 1 gets 404 from both
mutations and the row survives unmodified. -/
theorem C5_cart_mutation_owner_scoped_witness :
    ((some 2 : Option Nat).isNone && (none : Option String).isNone) = false ∧ (1 : ℤ) ≤ 5 ∧
      (∀ c ∈ C5store.cart, (c.id == 1 && ownerScope (some 2) none c) = false) ∧
      (updateCartItem (some 2) none 1 (some 5) C5store
          = (Resp.err 404 "Cart item not found", C5store)
        ∧ removeCartItem (some 2) none 1 C5store
          = (Resp.err 404 "Cart item not found", C5store)) :=
  ⟨by decide, by decide, by decide,
    C5_cart_mutation_owner_scoped (some 2) none 1 5 C5store (by decide) (by decide) (by decide)⟩

/-! ## Claim C8: status update frame -/

theorem updateOrderStatus_snd (status : String) (oid : Nat) (s : Store)
    (hvalid : validStatuses.contains status = true) :
    (updateOrderStatus status oid s).2
      = { s with orders :=
            s.orders.map (fun o => if o.id == oid then { o with status := status } else o) } := by
  unfold updateOrderStatus
  rw [hvalid]
  simp only [Bool.not_true, Bool.false_eq_true, if_false]
  split
  · rfl
  · rfl

/-- C8: a status update with one of the four valid values can change nothing
but the status of the addressed order — every other column of every order,
every other order, and the order_items/cart/products/users tables are exactly
as before; an invalid status value is rejected 400 with the store unchanged;
a valid status for an id no order has is rejected 404 with the store
unchanged. -/
theorem C8_update_status_frame_and_errors :
    (∀ (status : String) (oid : Nat) (s : Store),
      validStatuses.contains status = true →
        (updateOrderStatus status oid s).2.order_items = s.order_items
        ∧ (updateOrderStatus status oid s).2.cart = s.cart
        ∧ (updateOrderStatus status oid s).2.products = s.products
        ∧ (updateOrderStatus status oid s).2.users = s.users
        ∧ (updateOrderStatus status oid s).2.orders.length = s.orders.length
        ∧ ∀ (i : Nat) (h1 : i < s.orders.length)
            (h2 : i < (updateOrderStatus status oid s).2.orders.length),
            ((updateOrderStatus status oid s).2.orders[i].id = s.orders[i].id
             ∧ (updateOrderStatus status oid s).2.orders[i].user_id = s.orders[i].user_id
             ∧ (updateOrderStatus status oid s).2.orders[i].guest_session_id
                 = s.orders[i].guest_session_id
             ∧ (updateOrderStatus status oid s).2.orders[i].name = s.orders[i].name
             ∧ (updateOrderStatus status oid s).2.orders[i].email = s.orders[i].email
             ∧ (updateOrderStatus status oid s).2.orders[i].address = s.orders[i].address
             ∧ (updateOrderStatus status oid s).2.orders[i].phone = s.orders[i].phone
             ∧ (s.orders[i].id ≠ oid →
                 (updateOrderStatus status oid s).2.orders[i].status = s.orders[i].status)
             ∧ (s.orders[i].id = oid →
                 (updateOrderStatus status oid s).2.orders[i].status = status)))
    ∧ (∀ (status : String) (oid : Nat) (s : Store),
        validStatuses.contains status = false →
          updateOrderStatus status oid s = (Resp.err 400 "Invalid status", s))
    ∧ (∀ (status : String) (oid : Nat) (s : Store),
        validStatuses.contains status = true →
        (∀ o ∈ s.orders, o.id ≠ oid) →
          updateOrderStatus status oid s = (Resp.err 404 "Order not found", s)) := by
  refine ⟨?_, ?_, ?_⟩
  · intro status oid s hvalid
    rw [updateOrderStatus_snd status oid s hvalid]
    refine ⟨rfl, rfl, rfl, rfl, by simp, ?_⟩
    intro i h1 h2
    simp only [List.getElem_map]
    by_cases h : s.orders[i].id = oid
    · simp [h]
    · simp [h]
  · intro status oid s hinvalid
    unfold updateOrderStatus
    rw [hinvalid]
    rfl
  · intro status oid s hvalid hnone
    have hb : ∀ o ∈ s.orders, (o.id == oid) = false := by
      intro o ho; simp [hnone o ho]
    have hcount : s.orders.countP (fun o => o.id == oid) = 0 :=
      List.countP_eq_zero.mpr (by simpa using hb)
    unfold updateOrderStatus
    rw [hvalid]
    simp only [Bool.not_true, Bool.false_eq_true, if_false, hcount,
      map_ite_id _ _ _ hb]
    rfl

/-- Witness for C8: all three parts instantiated on `C8store`. -/
theorem C8_update_status_witness :
    (validStatuses.contains "approved" = true
      ∧ ((updateOrderStatus "approved" 1 C8store).2.order_items = C8store.order_items
        ∧ (updateOrderStatus "approved" 1 C8store).2.cart = C8store.cart
        ∧ (updateOrderStatus "approved" 1 C8store).2.products = C8store.products
        ∧ (updateOrderStatus "approved" 1 C8store).2.users = C8store.users
        ∧ (updateOrderStatus "approved" 1 C8store).2.orders.length = C8store.orders.length
        ∧ ∀ (i : Nat) (h1 : i < C8store.orders.length)
            (h2 : i < (updateOrderStatus "approved" 1 C8store).2.orders.length),
            ((updateOrderStatus "approved" 1 C8store).2.orders[i].id = C8store.orders[i].id
             ∧ (updateOrderStatus "approved" 1 C8store).2.orders[i].user_id
                 = C8store.orders[i].user_id
             ∧ (updateOrderStatus "approved" 1 C8store).2.orders[i].guest_session_id
                 = C8store.orders[i].guest_session_id
             ∧ (updateOrderStatus "approved" 1 C8store).2.orders[i].name
                 = C8store.orders[i].name
             ∧ (updateOrderStatus "approved" 1 C8store).2.orders[i].email
                 = C8store.orders[i].email
             ∧ (updateOrderStatus "approved" 1 C8store).2.orders[i].address
                 = C8store.orders[i].address
             ∧ (updateOrderStatus "approved" 1 C8store).2.orders[i].phone
                 = C8store.orders[i].phone
             ∧ (C8store.orders[i].id ≠ 1 →
                 (updateOrderStatus "approved" 1 C8store).2.orders[i].status
                   = C8store.orders[i].status)
             ∧ (C8store.orders[i].id = 1 →
                 (updateOrderStatus "approved" 1 C8store).2.orders[i].status = "approved"))))
    ∧ (validStatuses.contains "shipped" = false
      ∧ updateOrderStatus "shipped" 1 C8store = (Resp.err 400 "Invalid status", C8store))
    ∧ (validStatuses.contains "approved" = true ∧ (∀ o ∈ C8store.orders, o.id ≠ 99)
      ∧ updateOrderStatus "approved" 99 C8store = (Resp.err 404 "Order not found", C8store)) :=
  ⟨⟨by decide, C8_update_status_frame_and_errors.1 "approved" 1 C8store (by decide)⟩,
   ⟨by decide, C8_update_status_frame_and_errors.2.1 "shipped" 1 C8store (by decide)⟩,
   ⟨by decide, by decide,
     C8_update_status_frame_and_errors.2.2 "approved" 99 C8store (by decide) (by decide)⟩⟩

/-! ## Shape lemmas for add-to-cart and the order loop -/

theorem truthyNat_eq_some {o : Option Nat} {n : Nat} (h : truthyNat o = some n) :
    o = some n := by
  match o with
  | none => exact absurd h (by simp [truthyNat])
  | some 0 => exact absurd h (by simp [truthyNat])
  | some (k + 1) => simpa [truthyNat] using h

/-- A successful add-to-cart prepends exactly the row built from the request,
the resolved owner pair and the found product's effective price. -/
theorem addToCart_ok_shape (userId : Option Nat) (guest : Option String)
    (today : ℤ) (b : CartAddBody) (s s2 : Store) (cid : Nat)
    (h : addToCart userId guest today b s = (Resp.ok cid, s2)) :
    ∃ pid p sd ed q,
      truthyNat b.product_id = some pid
      ∧ findAvailableProduct s.products pid = some p
      ∧ cid = s.nextCartId
      ∧ s2 = { s with
          cart := { id := s.nextCartId, user_id := userId, guest_session_id := guest,
                    product_id := pid, start_date := sd, end_date := ed, quantity := q,
                    price_snapshot := effectivePrice p } :: s.cart,
          nextCartId := s.nextCartId + 1 } := by
  unfold addToCart at h
  split at h
  case _ pid sd ed q heq1 heq2 heq3 heq4 =>
    split at h
    · exact absurd (congrArg Prod.fst h) (by simp)
    · split at h
      · exact absurd (congrArg Prod.fst h) (by simp)
      · split at h
        · exact absurd (congrArg Prod.fst h) (by simp)
        · split at h
          · exact absurd (congrArg Prod.fst h) (by simp)
          · split at h
            case _ hfind => exact absurd (congrArg Prod.fst h) (by simp)
            case _ p hfind =>
              simp only [Prod.mk.injEq] at h
              obtain ⟨hcid, h2⟩ := h
              exact ⟨pid, p, sd, ed, q, heq1, hfind, (Resp.ok.inj hcid).symm, h2.symm⟩
  case _ =>
    exact absurd (congrArg Prod.fst h) (by simp)

/-- The insert-then-delete tail only touches `order_items` and `cart`. -/
theorem insertThenMaybeDelete_frame (userId : Option Nat) (guest : Option String)
    (cartIdRef : Option Nat) (item : OrderItem) (st : Store) :
    (insertThenMaybeDelete userId guest cartIdRef item st).orders = st.orders
      ∧ (insertThenMaybeDelete userId guest cartIdRef item st).products = st.products
      ∧ (insertThenMaybeDelete userId guest cartIdRef item st).users = st.users
      ∧ (insertThenMaybeDelete userId guest cartIdRef item st).nextOrderId = st.nextOrderId
      ∧ (insertThenMaybeDelete userId guest cartIdRef item st).nextCartId = st.nextCartId
      ∧ (insertThenMaybeDelete userId guest cartIdRef item st).nextUserId = st.nextUserId := by
  unfold insertThenMaybeDelete
  split
  · exact ⟨rfl, rfl, rfl, rfl, rfl, rfl⟩
  · exact ⟨rfl, rfl, rfl, rfl, rfl, rfl⟩

/-- A successful loop-body tail only touches `order_items` and `cart`. -/
theorem processLineWith_ok_frame (userId : Option Nat) (guest : Option String)
    (orderId : Nat) (l : OrderLine) (ci : Option CartFetch) (st st' : Store)
    (h : processLineWith userId guest orderId l ci st = Except.ok st') :
    st'.orders = st.orders ∧ st'.products = st.products ∧ st'.users = st.users
      ∧ st'.nextOrderId = st.nextOrderId ∧ st'.nextCartId = st.nextCartId
      ∧ st'.nextUserId = st.nextUserId := by
  unfold processLineWith at h
  split at h
  · exact absurd h (by simp)
  · split at h
    · exact absurd h (by simp)
    · split at h
      · split at h
        · exact absurd h (by simp)
        · split at h
          · cases Except.ok.inj h
            exact insertThenMaybeDelete_frame userId guest _ _ st
          · exact absurd h (by simp)
      · exact absurd h (by simp)

/-- A successful order-loop iteration only touches `order_items`, `cart` and
nothing else. -/
theorem processLine_ok_frame (userId : Option Nat) (guest : Option String)
    (orderId : Nat) (l : OrderLine) (st st' : Store)
    (h : processLine userId guest orderId l st = Except.ok st') :
    st'.orders = st.orders ∧ st'.products = st.products ∧ st'.users = st.users
      ∧ st'.nextOrderId = st.nextOrderId ∧ st'.nextCartId = st.nextCartId
      ∧ st'.nextUserId = st.nextUserId := by
  unfold processLine at h
  split at h
  · exact processLineWith_ok_frame userId guest orderId l none st st' h
  · split at h
    · exact absurd h (by simp)
    case _ cf hfetch =>
      exact processLineWith_ok_frame userId guest orderId l (some cf) st st' h

/-- The whole order loop only touches `order_items` and `cart`. -/
theorem processLines_ok_frame (userId : Option Nat) (guest : Option String)
    (orderId : Nat) (lines : List OrderLine) (st st' : Store)
    (h : processLines userId guest orderId lines st = Except.ok st') :
    st'.orders = st.orders ∧ st'.products = st.products ∧ st'.users = st.users
      ∧ st'.nextOrderId = st.nextOrderId ∧ st'.nextCartId = st.nextCartId
      ∧ st'.nextUserId = st.nextUserId := by
  induction lines generalizing st with
  | nil =>
    cases Except.ok.inj h
    exact ⟨rfl, rfl, rfl, rfl, rfl, rfl⟩
  | cons l ls ih =>
    unfold processLines at h
    split at h
    · exact absurd h (by simp)
    case _ st1 hline =>
      obtain ⟨a1, a2, a3, a4, a5, a6⟩ := processLine_ok_frame userId guest orderId l st st1 hline
      obtain ⟨b1, b2, b3, b4, b5, b6⟩ := ih st1 h
      exact ⟨b1.trans a1, b2.trans a2, b3.trans a3, b4.trans a4, b5.trans a5, b6.trans a6⟩

/-! ## Claim C6: price snapshot captured at add time; listing shows it -/

/-- C6: a successful add-to-cart stores, as `price_snapshot`, the effective
price (sale price if non-null, else regular price-per-day) of the product the
lookup found at add time; and every row of the owner-scoped cart listing
reports exactly its row's snapshot as the item's `price_per_day`, not the
product's live price. -/
theorem C6_price_snapshot
    (userId : Option Nat) (guest : Option String) (today : ℤ) (b : CartAddBody)
    (s s2 : Store) (cid : Nat)
    (h : addToCart userId guest today b s = (Resp.ok cid, s2)) :
    (∃ pid p row,
      truthyNat b.product_id = some pid
      ∧ findAvailableProduct s.products pid = some p
      ∧ s2.cart = row :: s.cart
      ∧ row.product_id = pid
      ∧ row.price_snapshot
          = (match p.sale_price with | some sp => sp | none => p.price_per_day))
    ∧ ∀ (u2 : Option Nat) (g2 : Option String) (t : Store) (views : List CartView),
        getCart u2 g2 t = Resp.ok views →
        ∀ v ∈ views, v.price_per_day = v.item.price_snapshot := by
  constructor
  · obtain ⟨pid, p, sd, ed, q, heq1, hfind, -, h2⟩ :=
      addToCart_ok_shape userId guest today b s s2 cid h
    refine ⟨pid, p,
      { id := s.nextCartId, user_id := userId, guest_session_id := guest,
        product_id := pid, start_date := sd, end_date := ed, quantity := q,
        price_snapshot := effectivePrice p },
      heq1, hfind, ?_, rfl, ?_⟩
    · rw [h2]
    · rfl
  · intro u2 g2 t views hv v hmem
    unfold getCart at hv
    split at hv
    · exact absurd hv (by simp)
    · have hviews := Resp.ok.inj hv
      rw [← hviews] at hmem
      obtain ⟨c, _, hf⟩ := List.mem_filterMap.mp hmem
      split at hf
      · split at hf
        case _ p hfind =>
          cases Option.some.inj hf
          rfl
        case _ => exact absurd hf (by simp)
      · exact absurd hf (by simp)

/-- Witness for C6: adding the on-sale product snapshots 25, not 30. -/
theorem C6_price_snapshot_witness :
    addToCart (some 3) none 0 C6body C6store = (Resp.ok 1, C6store2) ∧
      ((∃ pid p row,
        truthyNat C6body.product_id = some pid
        ∧ findAvailableProduct C6store.products pid = some p
        ∧ C6store2.cart = row :: C6store.cart
        ∧ row.product_id = pid
        ∧ row.price_snapshot
            = (match p.sale_price with | some sp => sp | none => p.price_per_day))
      ∧ ∀ (u2 : Option Nat) (g2 : Option String) (t : Store) (views : List CartView),
          getCart u2 g2 t = Resp.ok views →
          ∀ v ∈ views, v.price_per_day = v.item.price_snapshot) :=
  ⟨by decide, C6_price_snapshot (some 3) none 0 C6body C6store C6store2 1 (by decide)⟩

/-- Counterexample to C4: the only product is soft-deleted, yet the add-to-cart
request succeeds and inserts a CartItem, because the cart route's product
lookup filters on `available = TRUE` only and never checks `is_deleted`. -/
theorem C4_counterexample :
    (∀ p ∈ C4store.products, p.is_deleted = true)
    ∧ (addToCart none (some "g") 0 C4body C4store).1 = Resp.ok 1
    ∧ (addToCart none (some "g") 0 C4body C4store).2.cart.length = 1 := by
  decide

/-- C4 amended: an add-to-cart is rejected NotFound (with no CartItem
inserted) exactly when every product carrying the requested id has its
`available` flag false — the soft-delete flag is not consulted; a product that
is soft-deleted but still available is added normally. -/
theorem C4_amended_availability_only
    (userId : Option Nat) (guest : Option String) (today : ℤ) (b : CartAddBody)
    (s : Store) (pid : Nat) (sd ed q : ℤ)
    (hpid : truthyNat b.product_id = some pid)
    (hsd : b.start_date = some sd) (hed : b.end_date = some ed)
    (hq : truthyInt b.quantity = some q)
    (howner : (userId.isNone && guest.isNone) = false)
    (hrange : sd < ed) (hpast : today ≤ sd) (hqty : 1 ≤ q) :
    ((∀ p ∈ s.products, p.id = pid → p.available = false) →
        addToCart userId guest today b s
          = (Resp.err 404 "Product not found or unavailable", s))
    ∧ (∀ p, findAvailableProduct s.products pid = some p → p.is_deleted = true →
        (addToCart userId guest today b s).1 = Resp.ok s.nextCartId
        ∧ (addToCart userId guest today b s).2.cart.length = s.cart.length + 1) := by
  have h1 : ¬(ed ≤ sd) := not_le.mpr hrange
  have h2 : ¬(sd < today) := not_lt.mpr hpast
  have h3 : ¬(q < 1) := not_lt.mpr hqty
  constructor
  · intro hunavail
    have hfind : findAvailableProduct s.products pid = none := by
      unfold findAvailableProduct
      apply List.find?_eq_none.mpr
      intro p hp
      by_cases hid : p.id = pid
      · simp [hid, hunavail p hp hid]
      · simp [hid]
    unfold addToCart
    rw [hpid, hsd, hed, hq]
    simp only [howner, Bool.false_eq_true, if_false, h1, h2, h3, hfind, if_neg]
  · intro p hfind hdel
    unfold addToCart
    rw [hpid, hsd, hed, hq]
    simp only [howner, Bool.false_eq_true, if_false, h1, h2, h3, hfind, if_neg]
    simp

/-- Witness for the amended C4 on concrete stores: an id whose only product is
unavailable is rejected with no insert, and the soft-deleted-but-available
product of `C4store` is inserted. -/
theorem C4_amended_availability_only_witness :
    ((∀ p ∈ C4store.products, p.id = 9 → p.available = false) →
        addToCart none (some "g") 0
            { product_id := some 9, start_date := some 0, end_date := some 86400000,
              quantity := some 1 } C4store
          = (Resp.err 404 "Product not found or unavailable", C4store))
    ∧ (∀ p, findAvailableProduct C4store.products 9 = some p →
          p.is_deleted = true →
          (addToCart none (some "g") 0
              { product_id := some 9, start_date := some 0, end_date := some 86400000,
                quantity := some 1 } C4store).1 = Resp.ok C4store.nextCartId
          ∧ (addToCart none (some "g") 0
              { product_id := some 9, start_date := some 0, end_date := some 86400000,
                quantity := some 1 } C4store).2.cart.length = C4store.cart.length + 1) :=
  C4_amended_availability_only none (some "g") 0
    { product_id := some 9, start_date := some 0, end_date := some 86400000,
      quantity := some 1 } C4store 9 0 86400000 1
    (by decide) (by decide) (by decide) (by decide) (by decide) (by decide)
    (by decide) (by decide)

/-! ## Claim C7: owner XOR invariant -/

/-- On success the middleware yields either a user whose id survived the
truthiness check and no guest id, or no user and some guest id. -/
theorem authenticate_ok_shape (verify : String → Option Decoded)
    (authHeader bodyGuest queryGuest cookieGuest : Option String) (freshId : String)
    (u : Option Decoded) (g : Option String)
    (h : authenticate verify authHeader bodyGuest queryGuest cookieGuest freshId
          = Resp.ok (u, g)) :
    ((∃ d n, u = some d ∧ truthyNat d.id = some n) ∧ g = none)
      ∨ (u = none ∧ ∃ gid, g = some gid) := by
  unfold authenticate at h
  split at h
  · split at h
    case _ g0 hpick =>
      right
      have := Resp.ok.inj h
      exact ⟨(congrArg Prod.fst this).symm, g0, (congrArg Prod.snd this).symm⟩
    · right
      have := Resp.ok.inj h
      exact ⟨(congrArg Prod.fst this).symm, freshId, (congrArg Prod.snd this).symm⟩
  · split at h
    · exact absurd h (by simp)
    · split at h
      · exact absurd h (by simp)
      case _ d hverify =>
        split at h
        · exact absurd h (by simp)
        case _ n hid =>
          left
          have := Resp.ok.inj h
          exact ⟨⟨d, n, (congrArg Prod.fst this).symm, hid⟩, (congrArg Prod.snd this).symm⟩

/-- C7: (i) the middleware resolves exactly one owner kind; (ii) every cart
row visible after a successful composed add-to-cart is an old row or carries
exactly one owner kind; (iii) a successful order placement prepends exactly one
order row whose `user_id` is the caller's id, whose `guest_session_id` is null
whenever a user id is present (even if the body also supplied a guest id), and
which carries exactly one owner kind; (iv) and (v) cart-add and order
placement with no resolvable owner fail 400 before any insert. -/
theorem C7_owner_xor :
    (∀ (verify : String → Option Decoded)
       (authHeader bodyGuest queryGuest cookieGuest : Option String)
       (freshId : String) (u : Option Decoded) (g : Option String),
      authenticate verify authHeader bodyGuest queryGuest cookieGuest freshId
          = Resp.ok (u, g) →
        (u ≠ none ∧ g = none) ∨ (u = none ∧ g ≠ none))
    ∧ (∀ (verify : String → Option Decoded)
         (authHeader bodyGuest queryGuest cookieGuest : Option String)
         (freshId : String) (today : ℤ) (b : CartAddBody) (s s2 : Store) (cid : Nat),
        cartAddRoute verify authHeader bodyGuest queryGuest cookieGuest freshId today b s
            = (Resp.ok cid, s2) →
          ∀ c ∈ s2.cart, c ∈ s.cart
            ∨ (c.user_id ≠ none ∧ c.guest_session_id = none)
            ∨ (c.user_id = none ∧ c.guest_session_id ≠ none))
    ∧ (∀ (userId : Option Nat) (b : OrderBody) (s s2 : Store) (oid : Nat),
        placeOrder userId b s = (Resp.ok oid, s2) →
          ∃ o, s2.orders = o :: s.orders ∧ o.user_id = userId
            ∧ (∀ uid, userId = some uid → o.guest_session_id = none)
            ∧ ((o.user_id ≠ none ∧ o.guest_session_id = none)
               ∨ (o.user_id = none ∧ o.guest_session_id ≠ none)))
    ∧ (∀ (today : ℤ) (b : CartAddBody) (s : Store),
        ∃ msg, addToCart none none today b s = (Resp.err 400 msg, s))
    ∧ (∀ (b : OrderBody) (s : Store), b.guestSessionId = none →
        ∃ msg, placeOrder none b s = (Resp.err 400 msg, s)) := by
  refine ⟨?_, ?_, ?_, ?_, ?_⟩
  · intro verify ah bg qg cg freshId u g h
    rcases authenticate_ok_shape verify ah bg qg cg freshId u g h with
      ⟨⟨d, n, hu, -⟩, hg⟩ | ⟨hu, gid, hg⟩
    · exact Or.inl ⟨by simp [hu], hg⟩
    · exact Or.inr ⟨hu, by simp [hg]⟩
  · intro verify ah bg qg cg freshId today b s s2 cid h c hc
    unfold cartAddRoute at h
    split at h
    · exact absurd (congrArg Prod.fst h) (by simp)
    case _ u g hauth =>
      obtain ⟨pid, p, sd, ed, q, -, -, -, hs2⟩ :=
        addToCart_ok_shape _ g today b s s2 cid h
      rw [hs2] at hc
      rcases List.mem_cons.mp hc with hnew | hold
      · rcases authenticate_ok_shape verify ah bg qg cg freshId u g hauth with
          ⟨⟨d, n, hu, hid⟩, hg⟩ | ⟨hu, gid, hg⟩
        · right; left
          subst hnew
          constructor
          · simp [hu, truthyNat_eq_some hid]
          · simp [hg]
        · right; right
          subst hnew
          constructor
          · simp [hu]
          · simp [hg]
      · exact Or.inl hold
  · intro userId b s s2 oid h
    unfold placeOrder at h
    split at h
    · exact absurd (congrArg Prod.fst h) (by simp)
    · split at h
      · exact absurd (congrArg Prod.fst h) (by simp)
      case _ hown =>
        split at h
        · exact absurd (congrArg Prod.fst h) (by simp)
        case _ contact hcontact =>
          split at h
          · exact absurd (congrArg Prod.fst h) (by simp)
          case _ st' hlines =>
            have hs2 : st' = s2 := congrArg Prod.snd h
            obtain ⟨horders, -, -, -, -, -⟩ :=
              processLines_ok_frame userId b.guestSessionId s.nextOrderId b.cartItems _ st' hlines
            refine ⟨newOrderRow userId b contact s.nextOrderId, ?_, rfl, ?_, ?_⟩
            · rw [← hs2, horders]
            · intro uid huid
              simp [newOrderRow, huid]
            · match huser : userId with
              | some uid =>
                left
                constructor
                · simp [newOrderRow]
                · simp [newOrderRow]
              | none =>
                right
                refine ⟨by simp [newOrderRow], ?_⟩
                have hne : ¬b.guestSessionId = none := by simpa using hown
                simpa [newOrderRow] using hne
  · intro today b s
    unfold addToCart
    split
    · exact ⟨"User ID or guest session ID required", by simp⟩
    · exact ⟨"Missing required fields", rfl⟩
  · intro b s hguest
    unfold placeOrder
    split
    · exact ⟨"At least one cart item is required", rfl⟩
    · exact ⟨"User ID or guest session ID required", by simp [hguest]⟩

/-- Witness for C7: all five parts discharged at concrete inputs — a guest
session through the composed cart route, and a logged-in user's order placement
whose body also carries a guest id. -/
theorem C7_owner_xor_witness :
    (authenticate (fun _ => none) none (some "g") none none "fresh"
        = Resp.ok ((none : Option Decoded), some "g")
      ∧ ((((none : Option Decoded) ≠ none) ∧ (some "g" : Option String) = none)
         ∨ ((none : Option Decoded) = none ∧ (some "g" : Option String) ≠ none)))
    ∧ (cartAddRoute (fun _ => none) none (some "g") none none "fresh" 0 C6body C6store
          = (Resp.ok 1, C7cartStore2)
      ∧ ∀ c ∈ C7cartStore2.cart, c ∈ C6store.cart
          ∨ (c.user_id ≠ none ∧ c.guest_session_id = none)
          ∨ (c.user_id = none ∧ c.guest_session_id ≠ none))
    ∧ (placeOrder (some 1) C7orderBody C7orderStore = (Resp.ok 1, C7orderStore2)
      ∧ ∃ o, C7orderStore2.orders = o :: C7orderStore.orders ∧ o.user_id = some 1
          ∧ (∀ uid, (some 1 : Option Nat) = some uid → o.guest_session_id = none)
          ∧ ((o.user_id ≠ none ∧ o.guest_session_id = none)
             ∨ (o.user_id = none ∧ o.guest_session_id ≠ none)))
    ∧ (∃ msg, addToCart none none 0 C6body C6store = (Resp.err 400 msg, C6store))
    ∧ (C7noOwnerBody.guestSessionId = none
      ∧ ∃ msg, placeOrder none C7noOwnerBody emptyStore = (Resp.err 400 msg, emptyStore)) := by
  have hauth : authenticate (fun _ => none) none (some "g") none none "fresh"
      = Resp.ok ((none : Option Decoded), some "g") := by decide
  have hcart : cartAddRoute (fun _ => none) none (some "g") none none "fresh" 0 C6body C6store
      = (Resp.ok 1, C7cartStore2) := by decide
  have horder : placeOrder (some 1) C7orderBody C7orderStore = (Resp.ok 1, C7orderStore2) := by
    norm_num [placeOrder, processLines, processLine, processLineWith, resolveContact,
      insertThenMaybeDelete, fetchCartItem, findAvailableProduct, newOrderRow,
      lineTotal, rentalDays, msPerDay, effectivePrice, ownerScope,
      C7orderBody, C7orderStore, C7orderStore2,
      show truthyStr (some "u@x.co") = some "u@x.co" from rfl,
      show truthyNat (some 1) = some 1 from rfl,
      show truthyInt (some (1 : ℤ)) = some 1 from rfl]
  refine ⟨⟨hauth, ?_⟩, ⟨hcart, ?_⟩, ⟨horder, ?_⟩, ?_, rfl, ?_⟩
  · exact C7_owner_xor.1 (fun _ => none) none (some "g") none none "fresh" none (some "g") hauth
  · exact C7_owner_xor.2.1 (fun _ => none) none (some "g") none none "fresh" 0 C6body
      C6store C7cartStore2 1 hcart
  · exact C7_owner_xor.2.2.1 (some 1) C7orderBody C7orderStore C7orderStore2 1 horder
  · exact C7_owner_xor.2.2.2.1 0 C6body C6store
  · exact C7_owner_xor.2.2.2.2 C7noOwnerBody emptyStore rfl

/-! ## Claim C9: the product lookup uses the line's own productId -/

theorem processLineWith_productId_none (userId : Option Nat) (guest : Option String)
    (orderId : Nat) (l : OrderLine) (ci : Option CartFetch) (st : Store)
    (hpid : l.productId = none) :
    processLineWith userId guest orderId l ci st = Except.error bindUndefinedMsg := by
  unfold processLineWith
  rw [hpid]

theorem processLine_productId_none (userId : Option Nat) (guest : Option String)
    (orderId : Nat) (l : OrderLine) (st : Store) (hpid : l.productId = none) :
    ∃ e, processLine userId guest orderId l st = Except.error e := by
  unfold processLine
  split
  · exact ⟨_, processLineWith_productId_none userId guest orderId l none st hpid⟩
  · split
    · exact ⟨_, rfl⟩
    case _ cf _ =>
      exact ⟨_, processLineWith_productId_none userId guest orderId l (some cf) st hpid⟩

theorem processLines_productId_none (userId : Option Nat) (guest : Option String)
    (orderId : Nat) (lines : List OrderLine) (st : Store)
    (h : ∃ l ∈ lines, l.productId = none) :
    ∃ e, processLines userId guest orderId lines st = Except.error e := by
  induction lines generalizing st with
  | nil =>
    obtain ⟨l, hl, -⟩ := h
    exact absurd hl (List.not_mem_nil l)
  | cons l0 ls ih =>
    obtain ⟨l, hl, hpid⟩ := h
    unfold processLines
    rcases List.mem_cons.mp hl with rfl | hmem
    · obtain ⟨e, he⟩ := processLine_productId_none userId guest orderId l st hpid
      rw [he]
      exact ⟨e, rfl⟩
    · cases hline : processLine userId guest orderId l0 st with
      | error e => exact ⟨e, rfl⟩
      | ok st1 =>
        obtain ⟨e, he⟩ := ih st1 ⟨l, hmem, hpid⟩
        exact ⟨e, he⟩

/-- C9 amended: (i) a loop iteration whose line has no `productId` always
throws, no matter what the store or the cart reference holds; (ii) when the
line holds a valid owned cart reference, the thrown error is precisely the
driver's rejection of the `undefined` `productId` bind at the product-lookup
call (`Bind parameters must not contain undefined ...`) — the cart row's own
`product_id` is never consulted; (iii) an order placement whose lines include
such a line never succeeds. -/
theorem C9_product_lookup_uses_line_productId :
    (∀ (userId : Option Nat) (guest : Option String) (orderId : Nat)
       (l : OrderLine) (st : Store), l.productId = none →
        ∃ e, processLine userId guest orderId l st = Except.error e)
    ∧ (∀ (userId : Option Nat) (guest : Option String) (orderId : Nat)
         (l : OrderLine) (st : Store) (cid : Nat) (cf : CartFetch),
        l.productId = none → truthyNat l.cartId = some cid →
        fetchCartItem userId guest cid st = some cf →
          processLine userId guest orderId l st = Except.error bindUndefinedMsg)
    ∧ (∀ (userId : Option Nat) (b : OrderBody) (s : Store),
        (∃ l ∈ b.cartItems, l.productId = none) →
          ∃ code msg s2, placeOrder userId b s = (Resp.err code msg, s2)) := by
  refine ⟨processLine_productId_none, ?_, ?_⟩
  · intro userId guest orderId l st cid cf hpid hcid hfetch
    unfold processLine
    split
    · simp_all
    case _ cid2 hcid2 =>
      obtain rfl := Option.some.inj (hcid.symm.trans hcid2)
      split
      case _ hf =>
        rw [hfetch] at hf
        cases hf
      case _ cf2 hf =>
        rw [hfetch] at hf
        cases Option.some.inj hf
        exact processLineWith_productId_none userId guest orderId l (some cf) st hpid
  · intro userId b s h
    unfold placeOrder
    split
    · exact ⟨400, "At least one cart item is required", s, rfl⟩
    · split
      · exact ⟨400, "User ID or guest session ID required", s, rfl⟩
      · split
        case _ ce _ => exact ⟨ce.1, ce.2, s, rfl⟩
        case _ contact hcontact =>
          obtain ⟨e, he⟩ := processLines_productId_none userId b.guestSessionId
            s.nextOrderId b.cartItems
            { s with orders := newOrderRow userId b contact s.nextOrderId :: s.orders,
                     nextOrderId := s.nextOrderId + 1 } h
          rw [he]
          exact ⟨500, e, { s with nextOrderId := s.nextOrderId + 1 }, rfl⟩

/-- Counterexample to C9 as stated: on `C9store` — cart item 1 exists, is
owned by the caller, and its product 7 is available — the productId-less line
does abort, but with the driver's undefined-bind TypeError, which is not a
`Product ... not found or unavailable` failure; the product-not-found message
is never produced. -/
theorem C9_counterexample :
    processLine none (some "g") 1 C9line C9store = Except.error bindUndefinedMsg
    ∧ placeOrder none C9body C9store
        = (Resp.err 500 bindUndefinedMsg, { C9store with nextOrderId := 2 })
    ∧ bindUndefinedMsg ≠ "Product undefined not found or unavailable"
    ∧ bindUndefinedMsg ≠ "Product 7 not found or unavailable" := by
  refine ⟨by decide, by decide, by decide, by decide⟩

/-- Witness for the amended C9 on `C9store`: the owned, product-available cart
line without a productId still dies at the product-lookup call, on the
undefined bind. -/
theorem C9_product_lookup_witness :
    (C9line.productId = none
      ∧ ∃ e, processLine none (some "g") 1 C9line C9store = Except.error e)
    ∧ (C9line.productId = none ∧ truthyNat C9line.cartId = some 1
      ∧ fetchCartItem none (some "g") 1 C9store
          = some { row := { id := 1, user_id := none, guest_session_id := some "g",
                            product_id := 7, start_date := 0, end_date := 259200000,
                            quantity := 2, price_snapshot := 20 },
                   product_name := "P" }
      ∧ processLine none (some "g") 1 C9line C9store = Except.error bindUndefinedMsg)
    ∧ ((∃ l ∈ C9body.cartItems, l.productId = none)
      ∧ ∃ code msg s2, placeOrder none C9body C9store = (Resp.err code msg, s2)) := by
  refine ⟨⟨rfl, ?_⟩, ⟨rfl, by decide, by decide, ?_⟩, ⟨⟨C9line, by decide, rfl⟩, ?_⟩⟩
  · exact C9_product_lookup_uses_line_productId.1 none (some "g") 1 C9line C9store rfl
  · exact C9_product_lookup_uses_line_productId.2.1 none (some "g") 1 C9line C9store 1
      { row := { id := 1, user_id := none, guest_session_id := some "g", product_id := 7,
                 start_date := 0, end_date := 259200000, quantity := 2,
                 price_snapshot := 20 },
        product_name := "P" } rfl (by decide) (by decide)
  · exact C9_product_lookup_uses_line_productId.2.2 none C9body C9store
      ⟨C9line, by decide, rfl⟩

/-! ## Claim C1: order pricing and the cart price snapshot -/

theorem insertThenMaybeDelete_order_items (userId : Option Nat) (guest : Option String)
    (cartIdRef : Option Nat) (item : OrderItem) (st : Store) :
    (insertThenMaybeDelete userId guest cartIdRef item st).order_items
      = item :: st.order_items := by
  unfold insertThenMaybeDelete
  split
  · rfl
  · rfl

/-- A successful loop-body tail comes from a cart-referenced line with a
supplied productId, and is exactly the insert-then-delete of the item priced
from the looked-up product. -/
theorem processLineWith_ok_shape (userId : Option Nat) (guest : Option String)
    (orderId : Nat) (l : OrderLine) (ci : Option CartFetch) (st st' : Store)
    (h : processLineWith userId guest orderId l ci st = Except.ok st') :
    ∃ pid p sd ed q cf,
      l.productId = some pid
      ∧ findAvailableProduct st.products pid = some p
      ∧ ci = some cf
      ∧ st' = insertThenMaybeDelete userId guest (truthyNat l.cartId)
          { order_id := orderId, product_id := p.id,
            product_name := some cf.product_name,
            start_date := sd, end_date := ed, quantity := q,
            price_per_day := p.price_per_day,
            total_price := lineTotal sd ed p.price_per_day q,
            image_url := p.image_url } st := by
  unfold processLineWith at h
  split at h
  · exact absurd h (by simp)
  case _ pid hpid =>
    split at h
    · exact absurd h (by simp)
    case _ p hfind =>
      split at h
      case _ sd ed q h1 h2 h3 =>
        split at h
        · exact absurd h (by simp)
        · cases ci with
          | none => exact absurd h (by simp)
          | some cf =>
            exact ⟨pid, p, sd, ed, q, cf, hpid, hfind, rfl, (Except.ok.inj h).symm⟩
      case _ => exact absurd h (by simp)

/-- C1 amended: the OrderItem a successful loop iteration creates takes its
`price_per_day` from the product row the live lookup returned, and its
`total_price` is `rentalDays * live price * quantity`; the cart row's
`price_snapshot` is never consulted, so a product price edit between
add-to-cart and order placement does change the resulting `total_price`. -/
theorem C1_amended_order_priced_from_live_product (userId : Option Nat)
    (guest : Option String) (orderId : Nat) (l : OrderLine) (st st' : Store)
    (h : processLine userId guest orderId l st = Except.ok st') :
    ∃ pid p oi, l.productId = some pid
      ∧ findAvailableProduct st.products pid = some p
      ∧ st'.order_items = oi :: st.order_items
      ∧ oi.price_per_day = p.price_per_day
      ∧ oi.total_price = lineTotal oi.start_date oi.end_date p.price_per_day oi.quantity := by
  unfold processLine at h
  split at h
  · obtain ⟨pid, p, sd, ed, q, cf, hpid, hfind, hci, hst⟩ :=
      processLineWith_ok_shape userId guest orderId l none st st' h
    exact absurd hci (by simp)
  · split at h
    · exact absurd h (by simp)
    case _ cf0 hf =>
      obtain ⟨pid, p, sd, ed, q, cf, hpid, hfind, hci, hst⟩ :=
        processLineWith_ok_shape userId guest orderId l (some cf0) st st' h
      cases Option.some.inj hci
      refine ⟨pid, p,
        { order_id := orderId, product_id := p.id, product_name := some cf0.product_name,
          start_date := sd, end_date := ed, quantity := q,
          price_per_day := p.price_per_day,
          total_price := lineTotal sd ed p.price_per_day q,
          image_url := p.image_url }, hpid, hfind, ?_, rfl, rfl⟩
      rw [hst]
      exact insertThenMaybeDelete_order_items userId guest _ _ st

theorem C1_placeOrder_eval : placeOrder none C1body C1store = (Resp.ok 1, C1store2) := by
  norm_num [placeOrder, processLines, processLine, processLineWith, resolveContact,
    insertThenMaybeDelete, fetchCartItem, findAvailableProduct, newOrderRow,
    lineTotal, rentalDays, msPerDay, effectivePrice, ownerScope,
    C1body, C1store, C1line, C1product, C1cartRow, C1store2,
    show emailValid "n@x.co" = true from by decide,
    show truthyStr (some "N") = some "N" from rfl,
    show truthyStr (some "n@x.co") = some "n@x.co" from rfl,
    show truthyStr (some "A") = some "A" from rfl,
    show truthyStr (some "123") = some "123" from rfl,
    show truthyNat (some 1) = some 1 from rfl,
    show truthyInt (some 2) = some 2 from rfl]

/-- Counterexample to C1: the cart row's snapshot is 20 ($20/day at add time),
the product's live price is 30, and the placed order's line is billed
`3 * 30 * 2 = 180`, not the snapshot total `3 * 20 * 2 = 120` — the price edit
between add-to-cart and placement did change the OrderItem's `total_price`. -/
theorem C1_counterexample :
    C1store.cart.map CartItem.price_snapshot = [20]
    ∧ C1store.products.map Product.price_per_day = [30]
    ∧ (placeOrder none C1body C1store).1 = Resp.ok 1
    ∧ (placeOrder none C1body C1store).2.order_items.map OrderItem.price_per_day = [30]
    ∧ (placeOrder none C1body C1store).2.order_items.map OrderItem.total_price = [180]
    ∧ lineTotal C1cartRow.start_date C1cartRow.end_date C1cartRow.price_snapshot
        C1cartRow.quantity = 120
    ∧ (180 : ℚ) ≠ 120 := by
  refine ⟨by decide, by decide, ?_, ?_, ?_, ?_, by norm_num⟩
  · rw [C1_placeOrder_eval]
  · rw [C1_placeOrder_eval]
    decide
  · rw [C1_placeOrder_eval]
    decide
  · norm_num [lineTotal, rentalDays, msPerDay, C1cartRow]

/-- Witness for the amended C1 at the concrete C1 scenario. -/
theorem C1_amended_witness :
    processLine none (some "g") 1 C1line C1store = Except.ok C1procStore
    ∧ ∃ pid p oi, C1line.productId = some pid
        ∧ findAvailableProduct C1store.products pid = some p
        ∧ C1procStore.order_items = oi :: C1store.order_items
        ∧ oi.price_per_day = p.price_per_day
        ∧ oi.total_price = lineTotal oi.start_date oi.end_date p.price_per_day oi.quantity := by
  have h : processLine none (some "g") 1 C1line C1store = Except.ok C1procStore := by
    norm_num [processLine, processLineWith, insertThenMaybeDelete, fetchCartItem,
      findAvailableProduct, lineTotal, rentalDays, msPerDay, ownerScope,
      C1store, C1line, C1product, C1cartRow, C1procStore,
      show truthyNat (some 1) = some 1 from rfl,
      show truthyInt (some 2) = some 2 from rfl]
  exact ⟨h, C1_amended_order_priced_from_live_product none (some "g") 1 C1line
    C1store C1procStore h⟩

/-! ## Claim C2: atomicity of order placement -/

theorem find_filter_of_imp {α : Type} (p q : α → Bool) (xs : List α)
    (h : ∀ a ∈ xs, p a = true → q a = true) :
    (xs.filter q).find? p = xs.find? p := by
  induction xs with
  | nil => rfl
  | cons a t ih =>
    have ht : ∀ a' ∈ t, p a' = true → q a' = true :=
      fun a' ha' => h a' (List.mem_cons_of_mem a ha')
    cases hp : p a with
    | true =>
      have hq := h a (List.mem_cons_self a t) hp
      rw [List.filter_cons, if_pos hq, List.find?_cons_of_pos _ hp,
        List.find?_cons_of_pos _ hp]
    | false =>
      rw [List.find?_cons_of_neg _ (by simp [hp]), List.filter_cons]
      split
      · rw [List.find?_cons_of_neg _ (by simp [hp])]
        exact ih ht
      · exact ih ht

theorem countP_filter_of_imp {α : Type} (p q : α → Bool) (xs : List α)
    (h : ∀ a ∈ xs, p a = true → q a = true) :
    (xs.filter q).countP p = xs.countP p := by
  induction xs with
  | nil => rfl
  | cons a t ih =>
    have ht : ∀ a' ∈ t, p a' = true → q a' = true :=
      fun a' ha' => h a' (List.mem_cons_of_mem a ha')
    cases hp : p a with
    | true =>
      have hq := h a (List.mem_cons_self a t) hp
      rw [List.filter_cons, if_pos hq, List.countP_cons, List.countP_cons, hp, ih ht]
    | false =>
      rw [List.filter_cons]
      split
      · rw [List.countP_cons, List.countP_cons, hp, ih ht]
      · rw [List.countP_cons, hp, ih ht]
        simp

theorem length_filter_not {α : Type} (p : α → Bool) (xs : List α) :
    (xs.filter (fun a => !p a)).length = xs.length - xs.countP p := by
  induction xs with
  | nil => rfl
  | cons a t ih =>
    have hle : t.countP p ≤ t.length := List.countP_le_length p
    cases hp : p a with
    | true =>
      simp [List.filter_cons, hp, List.countP_cons, ih]
      try omega
    | false =>
      simp [List.filter_cons, hp, List.countP_cons, ih]
      try omega

theorem truthyInt_some_of_ne {q : ℤ} (h : q ≠ 0) : truthyInt (some q) = some q := by
  simp [truthyInt_eq_ite, h]

/-- A valid line's iteration succeeds and performs exactly one `order_items`
insert (for this order) and the owner-scoped delete of its claimed rows. -/
theorem processLine_ok_of_valid (userId : Option Nat) (guest : Option String)
    (orderId : Nat) (l : OrderLine) (st : Store)
    (hok : lineOK userId guest st l = true) :
    ∃ cid oi, truthyNat l.cartId = some cid
      ∧ oi.order_id = orderId
      ∧ st.cart.countP (fun c => c.id == cid && ownerScope userId guest c) = 1
      ∧ processLine userId guest orderId l st = Except.ok
          { st with order_items := oi :: st.order_items,
                    cart := st.cart.filter
                      (fun c => !(c.id == cid && ownerScope userId guest c)) } := by
  unfold lineOK at hok
  split at hok
  case _ cid pid hcid hpid =>
    split at hok
    · exact absurd hok (by simp)
    case _ cf hfetch =>
      simp only [Bool.and_eq_true, beq_iff_eq, bne_iff_ne, ne_eq,
        decide_eq_true_eq, Option.isSome_iff_exists] at hok
      obtain ⟨⟨⟨hcount, hlt⟩, hq⟩, p, hfind⟩ := hok
      refine ⟨cid,
        { order_id := orderId, product_id := p.id,
          product_name := some cf.product_name,
          start_date := cf.row.start_date, end_date := cf.row.end_date,
          quantity := cf.row.quantity, price_per_day := p.price_per_day,
          total_price := lineTotal cf.row.start_date cf.row.end_date
            p.price_per_day cf.row.quantity,
          image_url := p.image_url }, hcid, rfl, hcount, ?_⟩
      unfold processLine
      simp only [hcid, hfetch]
      unfold processLineWith
      simp only [hpid, hfind, truthyInt_some_of_ne hq, hcid]
      rw [if_neg (not_le.mpr hlt)]
      unfold insertThenMaybeDelete
      rfl
  all_goals exact absurd hok (by simp)

theorem lineClaims_of_cid (userId : Option Nat) (guest : Option String)
    (l : OrderLine) (cid : Nat) (c : CartItem)
    (h : truthyNat l.cartId = some cid) :
    lineClaims userId guest l c = (c.id == cid && ownerScope userId guest c) := by
  unfold lineClaims
  rw [h]

/-- Validity of a line survives another line's owner-scoped cart delete as long
as the two lines reference different cart ids. -/
theorem lineOK_step (userId : Option Nat) (guest : Option String) (st : Store)
    (l : OrderLine) (cid0 : Nat) (oi : OrderItem)
    (hok : lineOK userId guest st l = true)
    (hne : truthyNat l.cartId ≠ some cid0) :
    lineOK userId guest
      { st with order_items := oi :: st.order_items,
                cart := st.cart.filter
                  (fun c => !(c.id == cid0 && ownerScope userId guest c)) } l = true := by
  unfold lineOK at hok ⊢
  split at hok
  case _ cid pid hcid hpid =>
    have hcidne : cid ≠ cid0 := fun he => hne (he ▸ hcid)
    have himp : ∀ c ∈ st.cart, (c.id == cid && ownerScope userId guest c) = true →
        (!(c.id == cid0 && ownerScope userId guest c)) = true := by
      intro c _ hc
      have h1 : c.id = cid := by
        have := (Bool.and_eq_true _ _).mp hc
        simpa using this.1
      simp [h1, hcidne]
    split at hok
    · exact absurd hok (by simp)
    case _ cf hfetch =>
      have hfind' : (st.cart.filter
          (fun c => !(c.id == cid0 && ownerScope userId guest c))).find?
            (fun c => c.id == cid && ownerScope userId guest c)
          = st.cart.find? (fun c => c.id == cid && ownerScope userId guest c) :=
        find_filter_of_imp _ _ st.cart himp
      have hfetch' : fetchCartItem userId guest cid
          { st with order_items := oi :: st.order_items,
                    cart := st.cart.filter
                      (fun c => !(c.id == cid0 && ownerScope userId guest c)) }
          = some cf := by
        unfold fetchCartItem at hfetch ⊢
        dsimp only
        rw [hfind']
        exact hfetch
      have hcount' : (st.cart.filter
          (fun c => !(c.id == cid0 && ownerScope userId guest c))).countP
            (fun c => c.id == cid && ownerScope userId guest c)
          = st.cart.countP (fun c => c.id == cid && ownerScope userId guest c) :=
        countP_filter_of_imp _ _ st.cart himp
      simp only [hcid, hpid, hfetch']
      rw [hcount']
      simpa using hok
  all_goals exact absurd hok (by simp)

/-- A batch of valid, pairwise-distinct cart-referenced lines processes to
success, prepending one priced OrderItem per line and deleting exactly the
claimed cart rows. -/
theorem processLines_ok_of_valid (userId : Option Nat) (guest : Option String)
    (orderId : Nat) (lines : List OrderLine) (st : Store)
    (hok : ∀ l ∈ lines, lineOK userId guest st l = true)
    (hdisj : (lines.map (fun l => truthyNat l.cartId)).Pairwise (fun a b => a ≠ b)) :
    ∃ st2 newItems,
      processLines userId guest orderId lines st = Except.ok st2
      ∧ st2.orders = st.orders ∧ st2.products = st.products ∧ st2.users = st.users
      ∧ st2.order_items = newItems ++ st.order_items
      ∧ newItems.length = lines.length
      ∧ (∀ oi ∈ newItems, oi.order_id = orderId)
      ∧ st2.cart = st.cart.filter
          (fun c => !(lines.any (fun l => lineClaims userId guest l c)))
      ∧ st2.cart.length = st.cart.length - lines.length := by
  induction lines generalizing st with
  | nil =>
    refine ⟨st, [], rfl, rfl, rfl, rfl, rfl, rfl, by simp, by simp, by simp⟩
  | cons l0 ls ih =>
    obtain ⟨cid0, oi0, hcid0, hoid0, hcount0, hline⟩ :=
      processLine_ok_of_valid userId guest orderId l0 st (hok l0 (List.mem_cons_self l0 ls))
    rw [List.map_cons, List.pairwise_cons] at hdisj
    obtain ⟨hhead, htail⟩ := hdisj
    have hne : ∀ l2 ∈ ls, truthyNat l2.cartId ≠ some cid0 := by
      intro l2 hl2 he
      exact hhead (truthyNat l2.cartId) (List.mem_map_of_mem _ hl2) (hcid0.trans he.symm)
    have hok1 : ∀ l2 ∈ ls, lineOK userId guest
        { st with order_items := oi0 :: st.order_items,
                  cart := st.cart.filter
                    (fun c => !(c.id == cid0 && ownerScope userId guest c)) } l2 = true :=
      fun l2 hl2 => lineOK_step userId guest st l2 cid0 oi0
        (hok l2 (List.mem_cons_of_mem l0 hl2)) (hne l2 hl2)
    obtain ⟨st2, items2, hproc2, ho, hp, hu, hitems, hlen, hoid, hcart, hclen⟩ :=
      ih _ hok1 htail
    refine ⟨st2, items2 ++ [oi0], ?_, ho, hp, hu, ?_, ?_, ?_, ?_, ?_⟩
    · unfold processLines
      simp only [hline]
      exact hproc2
    · rw [hitems]
      simp
    · simp [hlen]
    · intro oi hm
      rcases List.mem_append.mp hm with h2 | h2
      · exact hoid oi h2
      · rw [List.mem_singleton.mp h2]
        exact hoid0
    · rw [hcart]
      dsimp only
      rw [List.filter_filter]
      apply List.filter_congr
      intro c _
      rw [List.any_cons, lineClaims_of_cid userId guest l0 cid0 c hcid0]
      cases h1 : (c.id == cid0 && ownerScope userId guest c) <;>
        cases h2 : ls.any (fun l => lineClaims userId guest l c) <;> simp [h1, h2]
    · rw [hclen]
      dsimp only
      rw [length_filter_not _ st.cart, hcount0]
      simp only [List.length_cons]
      omega

/-- C2: (i) with pre-checks passed, N valid pairwise-distinct cart-referenced
lines commit atomically: exactly one new Order row, exactly N new OrderItems
all belonging to it, and exactly the claimed CartItems deleted (N rows); (ii)
every error response of the endpoint leaves orders, order_items, cart,
products and users exactly as before (full rollback — no partial order is ever
visible); (iii) a failure inside the transaction surfaces as a 500 carrying
the causing error's message. -/
theorem C2_place_order_atomicity :
    (∀ (userId : Option Nat) (b : OrderBody) (s : Store) (contact : Contact),
      b.cartItems.isEmpty = false →
      (userId.isNone && b.guestSessionId.isNone) = false →
      resolveContact userId b s = Except.ok contact →
      (∀ l ∈ b.cartItems, lineOK userId b.guestSessionId s l = true) →
      (b.cartItems.map (fun l => truthyNat l.cartId)).Pairwise (fun a c => a ≠ c) →
      ∃ s2 newItems,
        placeOrder userId b s = (Resp.ok s.nextOrderId, s2)
        ∧ s2.orders = newOrderRow userId b contact s.nextOrderId :: s.orders
        ∧ s2.order_items = newItems ++ s.order_items
        ∧ newItems.length = b.cartItems.length
        ∧ (∀ oi ∈ newItems, oi.order_id = s.nextOrderId)
        ∧ s2.cart = s.cart.filter
            (fun c => !(b.cartItems.any (fun l => lineClaims userId b.guestSessionId l c)))
        ∧ s2.cart.length = s.cart.length - b.cartItems.length)
    ∧ (∀ (userId : Option Nat) (b : OrderBody) (s s2 : Store) (r : Resp Nat),
        placeOrder userId b s = (r, s2) →
          (∃ oid, r = Resp.ok oid)
          ∨ ((∃ code msg, r = Resp.err code msg)
             ∧ s2.orders = s.orders ∧ s2.order_items = s.order_items
             ∧ s2.cart = s.cart ∧ s2.products = s.products ∧ s2.users = s.users))
    ∧ (∀ (userId : Option Nat) (b : OrderBody) (s : Store) (contact : Contact) (e : String),
        b.cartItems.isEmpty = false →
        (userId.isNone && b.guestSessionId.isNone) = false →
        resolveContact userId b s = Except.ok contact →
        processLines userId b.guestSessionId s.nextOrderId b.cartItems
          { s with orders := newOrderRow userId b contact s.nextOrderId :: s.orders,
                   nextOrderId := s.nextOrderId + 1 } = Except.error e →
          placeOrder userId b s
            = (Resp.err 500 e, { s with nextOrderId := s.nextOrderId + 1 })) := by
  refine ⟨?_, ?_, ?_⟩
  · intro userId b s contact hempty hown hcontact hok hdisj
    obtain ⟨st2, newItems, hproc, ho, hp2, hu, hitems, hlen, hoid, hcart, hclen⟩ :=
      processLines_ok_of_valid userId b.guestSessionId s.nextOrderId b.cartItems
        { s with orders := newOrderRow userId b contact s.nextOrderId :: s.orders,
                 nextOrderId := s.nextOrderId + 1 } hok hdisj
    refine ⟨st2, newItems, ?_, ho, hitems, hlen, hoid, hcart, hclen⟩
    unfold placeOrder
    simp only [hempty, hown, Bool.false_eq_true, if_false, hcontact, hproc]
  · intro userId b s s2 r h
    unfold placeOrder at h
    split at h
    · obtain ⟨h1, h2⟩ := Prod.mk.injEq .. |>.mp h
      exact Or.inr ⟨⟨400, _, h1.symm⟩, by rw [← h2], by rw [← h2], by rw [← h2],
        by rw [← h2], by rw [← h2]⟩
    · split at h
      · obtain ⟨h1, h2⟩ := Prod.mk.injEq .. |>.mp h
        exact Or.inr ⟨⟨400, _, h1.symm⟩, by rw [← h2], by rw [← h2], by rw [← h2],
          by rw [← h2], by rw [← h2]⟩
      · split at h
        case _ ce _ =>
          obtain ⟨h1, h2⟩ := Prod.mk.injEq .. |>.mp h
          exact Or.inr ⟨⟨ce.1, ce.2, h1.symm⟩, by rw [← h2], by rw [← h2], by rw [← h2],
            by rw [← h2], by rw [← h2]⟩
        case _ contact hcontact =>
          split at h
          case _ e he =>
            obtain ⟨h1, h2⟩ := Prod.mk.injEq .. |>.mp h
            exact Or.inr ⟨⟨500, e, h1.symm⟩, by rw [← h2], by rw [← h2], by rw [← h2],
              by rw [← h2], by rw [← h2]⟩
          case _ st' hst' =>
            obtain ⟨h1, -⟩ := Prod.mk.injEq .. |>.mp h
            exact Or.inl ⟨s.nextOrderId, h1.symm⟩
  · intro userId b s contact e hempty hown hcontact hproc
    unfold placeOrder
    simp only [hempty, hown, Bool.false_eq_true, if_false, hcontact, hproc]

/-- Witness for C2: the two-line order commits with exactly 2 OrderItems and
both CartItems removed; the failing C9 placement (missing productId) rolls
back with every row table unchanged and surfaces the causing message. -/
theorem C2_place_order_atomicity_witness :
    (C2body.cartItems.isEmpty = false
      ∧ ((none : Option Nat).isNone && C2body.guestSessionId.isNone) = false
      ∧ resolveContact none C2body C2store = Except.ok C2contact
      ∧ (∀ l ∈ C2body.cartItems, lineOK none C2body.guestSessionId C2store l = true)
      ∧ (C2body.cartItems.map (fun l => truthyNat l.cartId)).Pairwise (fun a c => a ≠ c)
      ∧ ∃ s2 newItems,
          placeOrder none C2body C2store = (Resp.ok C2store.nextOrderId, s2)
          ∧ s2.orders = newOrderRow none C2body C2contact C2store.nextOrderId :: C2store.orders
          ∧ s2.order_items = newItems ++ C2store.order_items
          ∧ newItems.length = C2body.cartItems.length
          ∧ (∀ oi ∈ newItems, oi.order_id = C2store.nextOrderId)
          ∧ s2.cart = C2store.cart.filter
              (fun c => !(C2body.cartItems.any (fun l => lineClaims none C2body.guestSessionId l c)))
          ∧ s2.cart.length = C2store.cart.length - C2body.cartItems.length)
    ∧ (placeOrder none C9body C9store
          = (Resp.err 500 bindUndefinedMsg,
             { C9store with nextOrderId := 2 })
      ∧ ((∃ oid, (Resp.err 500 bindUndefinedMsg : Resp Nat)
            = Resp.ok oid)
         ∨ ((∃ code msg,
              (Resp.err 500 bindUndefinedMsg : Resp Nat)
                = Resp.err code msg)
            ∧ ({ C9store with nextOrderId := 2 } : Store).orders = C9store.orders
            ∧ ({ C9store with nextOrderId := 2 } : Store).order_items = C9store.order_items
            ∧ ({ C9store with nextOrderId := 2 } : Store).cart = C9store.cart
            ∧ ({ C9store with nextOrderId := 2 } : Store).products = C9store.products
            ∧ ({ C9store with nextOrderId := 2 } : Store).users = C9store.users)))
    ∧ (C9body.cartItems.isEmpty = false
      ∧ ((none : Option Nat).isNone && C9body.guestSessionId.isNone) = false
      ∧ resolveContact none C9body C9store = Except.ok C2contact
      ∧ processLines none C9body.guestSessionId C9store.nextOrderId C9body.cartItems
          { C9store with
            orders := newOrderRow none C9body C2contact C9store.nextOrderId :: C9store.orders,
            nextOrderId := C9store.nextOrderId + 1 }
          = Except.error bindUndefinedMsg
      ∧ placeOrder none C9body C9store
          = (Resp.err 500 bindUndefinedMsg,
             { C9store with nextOrderId := C9store.nextOrderId + 1 })) := by
  have hroll : placeOrder none C9body C9store
      = (Resp.err 500 bindUndefinedMsg,
         { C9store with nextOrderId := 2 }) := by decide
  refine ⟨⟨by decide, by decide, by decide, by decide, by decide, ?_⟩,
          ⟨hroll, ?_⟩, by decide, by decide, by decide, by decide, ?_⟩
  · exact C2_place_order_atomicity.1 none C2body C2store C2contact
      (by decide) (by decide) (by decide) (by decide) (by decide)
  · exact C2_place_order_atomicity.2.1 none C9body C9store
      { C9store with nextOrderId := 2 }
      (Resp.err 500 bindUndefinedMsg) hroll
  · exact C2_place_order_atomicity.2.2 none C9body C9store C2contact
      bindUndefinedMsg (by decide) (by decide) (by decide) (by decide)

end DtProd
